import Mathlib

/-!
# Five-tuple extraction pipeline (getinfo.go)

A shallow embedding of the per-frame processing of `getinfo.go`: the body of the
`for msg := range ch` loop from the length check on the decoded frame up to the
assembly of the `FiveTuple` value (`processFrame`) and on through `json.Marshal` and
`rdb.Publish` (`loopBody`), together with the helper functions `getGeoLocation`, `isPrivateIP`,
`protocolName`, `DetectApplicationProtocol`, `isFTP`, `isSMTP`, `isHTTP`, `isDNS`, and of
the interface selection of `captrue.go` (`getActiveInterface`, `isVirtualInterface`,
`isPhysicalInterface`).

Conventions of the embedding.

* A Go `byte` is a `Fin 256`; a `[]byte` and a Go `string` are both `List Byte`
  (a Go string is an immutable byte sequence, and every operation the program
  applies to strings is byte-wise).
* `uint16` and `int` values are natural numbers; `uint16` results are reduced
  modulo `2^16` where they are computed.
* A `float64` is represented by its IEEE-754 bit pattern; the program only moves
  coordinates around and writes the constant `0.0`, whose pattern is `0`. NaN and the
  two infinities are the patterns whose eleven exponent bits are all set.
* The message bus is an arbitrary function telling whether `rdb.Publish` succeeds; the
  published message, the JSON text of a tuple, is represented by the tuple.
* Indexing and slicing are bounds-checked: an access that is out of range yields
  `Halt.panic`, as the Go runtime would. Slices with an explicit upper bound are
  checked against the length (Go checks against the capacity, which is at least
  the length, so the embedding panics whenever Go does).
* Every `continue` of the loop body is a `Halt.skip` carrying the place it
  was taken from.
* The geolocation database is an arbitrary function from addresses to lookup
  results.
-/

namespace GetInfo

/-! ## Bytes, strings, slices -/

/-- Go `byte`. -/
abbrev Byte := Fin 256

/-- Go `string`, as its byte sequence. -/
abbrev GoString := List Byte

/-- Go `float64`, as its IEEE-754 bit pattern (`0` is `0.0`). -/
abbrev Float64 := Nat

/-- The byte sequence of an ASCII string literal of the source. -/
def str (s : String) : GoString := s.toList.map (fun c => Fin.ofNat c.toNat)

/-- Places where the loop body executes `continue`, in source order. -/
inductive Reject where
  | tooShort        -- `len(data) < 34`
  | etherType       -- `ethType != 0x0800`
  | ipVersion       -- `ipVersion != 4`
  | headerLength    -- `len(ipHeader) < ihl+4`
  | broadcast       -- either address equals `net.IPv4bcast`
  | bothPrivate     -- both addresses private
  | transport       -- `proto != 6 && proto != 17`
  | transHeader     -- `len(transHeader) < 4`
  deriving DecidableEq

/-- Why the processing of a frame stops without a record. -/
inductive Halt where
  | panic                 -- run-time panic: index or slice out of range
  | skip (r : Reject)     -- a `continue` of the loop
  deriving DecidableEq

/-- Indexing `s[i]`. -/
def index (s : List Byte) (i : Nat) : Except Halt Byte :=
  match s[i]? with
  | some b => .ok b
  | none => .error .panic

/-- Slicing `s[lo:hi]`. -/
def slice (s : List Byte) (lo hi : Nat) : Except Halt (List Byte) :=
  if lo ≤ hi ∧ hi ≤ s.length then .ok ((s.drop lo).take (hi - lo)) else .error .panic

/-- Slicing `s[lo:]`. -/
def sliceFrom (s : List Byte) (lo : Nat) : Except Halt (List Byte) :=
  if lo ≤ s.length then .ok (s.drop lo) else .error .panic

/-- The function `binary.BigEndian.Uint16`: `uint16(b[1]) | uint16(b[0])<<8`, after the
bounds check `_ = b[1]`. -/
def Uint16 (b : List Byte) : Except Halt Nat :=
  match index b 1, index b 0 with
  | .ok b1, .ok b0 => .ok ((b1.val ||| (b0.val <<< 8)) % 65536)
  | _, _ => .error .panic

/-! ## Library string functions -/

/-- The function `strings.HasPrefix`: `len(s) >= len(p) && s[:len(p)] == p`. -/
def HasPrefix (s p : GoString) : Bool :=
  decide (s.length ≥ p.length) && (s.take p.length == p)

/-- The function `strings.Contains`: some position of `s` starts an occurrence of `sub`. -/
def Contains : GoString → GoString → Bool
  | [], sub => HasPrefix [] sub
  | b :: s, sub => HasPrefix (b :: s) sub || Contains s sub

/-- Continuation byte `0x80..0xBF`. -/
def isCont (c : Byte) : Bool := decide (0x80 ≤ c.val ∧ c.val ≤ 0xBF)

/-- The function `utf8.Valid`: the bytes are a sequence of well-formed UTF-8 encodings. The
cases follow the `first` and `acceptRanges` tables of package `unicode/utf8`. -/
def utf8Valid : List Byte → Bool
  | [] => true
  | p0 :: rest =>
    if p0.val < 0x80 then utf8Valid rest
    else if 0xC2 ≤ p0.val ∧ p0.val ≤ 0xDF then
      match rest with
      | c1 :: r => isCont c1 && utf8Valid r
      | _ => false
    else if 0xE0 ≤ p0.val ∧ p0.val ≤ 0xEF then
      match rest with
      | c1 :: c2 :: r =>
        decide ((if p0.val = 0xE0 then 0xA0 else 0x80) ≤ c1.val ∧
                c1.val ≤ (if p0.val = 0xED then 0x9F else 0xBF))
          && isCont c2 && utf8Valid r
      | _ => false
    else if 0xF0 ≤ p0.val ∧ p0.val ≤ 0xF4 then
      match rest with
      | c1 :: c2 :: c3 :: r =>
        decide ((if p0.val = 0xF0 then 0x90 else 0x80) ≤ c1.val ∧
                c1.val ≤ (if p0.val = 0xF4 then 0x8F else 0xBF))
          && isCont c2 && isCont c3 && utf8Valid r
      | _ => false
    else false

/-! ## Application protocol classifier -/

/-- Source: `isFTP`. -/
def isFTP (data : GoString) (srcPort dstPort : Nat) : Bool :=
  srcPort == 21 || dstPort == 21 || HasPrefix data (str "USER ") || HasPrefix data (str "PASS ")

/-- Source: `isSMTP`. -/
def isSMTP (data : GoString) (srcPort dstPort : Nat) : Bool :=
  srcPort == 25 || dstPort == 25 || HasPrefix data (str "HELO") ||
    HasPrefix data (str "MAIL FROM") || HasPrefix data (str "RCPT TO")

/-- Source: `isHTTP` (the ports are not used). -/
def isHTTP (data : GoString) (_srcPort _dstPort : Nat) : Bool :=
  HasPrefix data (str "GET ") || HasPrefix data (str "POST ") ||
    HasPrefix data (str "HEAD ") || Contains data (str "HTTP/")

/-- Source: `isDNS`. -/
def isDNS (srcPort dstPort : Nat) : Bool :=
  srcPort == 53 || dstPort == 53

/-- Source: `DetectApplicationProtocol`. -/
def DetectApplicationProtocol (proto : Nat) (srcPort dstPort : Nat) (data : GoString) :
    GoString :=
  if proto = 6 then
    if isFTP data srcPort dstPort then str "FTP"
    else if isSMTP data srcPort dstPort then str "SMTP"
    else if isHTTP data srcPort dstPort then str "HTTP"
    else str "TCP_CONN"
  else if proto = 17 then
    if isDNS srcPort dstPort then str "DNS"
    else str "UDP_PACKET"
  else str "UNKNOWN"

/-- Source: `protocolName`. -/
def protocolName (p : Nat) : GoString :=
  if p = 6 then str "TCP"
  else if p = 17 then str "UDP"
  else str "Unknown(" ++ str (toString p) ++ str ")"

/-! ## Package `net`: addresses and networks -/

/-- Go `net.IP`: a byte slice, 4 bytes for the addresses cut out of a frame. -/
abbrev IP := List Byte

/-- The 12-byte prefix `v4InV6Prefix` of an IPv4 address in 16-byte form. -/
def v4InV6Prefix : List Byte := [0, 0, 0, 0, 0, 0, 0, 0, 0, 0, 0xff, 0xff]

/-- The function `net.IPv4`: the 16-byte form of `a.b.c.d`. -/
def IPv4 (a b c d : Byte) : IP := v4InV6Prefix ++ [a, b, c, d]

/-- The variable `net.IPv4bcast`, the limited broadcast address. -/
def IPv4bcast : IP := IPv4 255 255 255 255

/-- The method `net.IP.Equal`: equality up to the 4-byte / 16-byte form of an IPv4 address. -/
def IPEqual (ip x : IP) : Bool :=
  if ip.length = x.length then ip == x
  else if ip.length = 4 ∧ x.length = 16 then
    (x.take 12 == v4InV6Prefix) && (ip == x.drop 12)
  else if ip.length = 16 ∧ x.length = 4 then
    (ip.take 12 == v4InV6Prefix) && (ip.drop 12 == x)
  else false

/-- The method `net.IP.To4`: the 4-byte form, `none` for `nil`. -/
def To4 (ip : IP) : Option IP :=
  if ip.length = 4 then some ip
  else if ip.length = 16 ∧ (ip.take 10).all (fun b => b.val == 0) ∧
      ip[10]? = some 0xff ∧ ip[11]? = some 0xff then some ((ip.drop 12).take 4)
  else none

/-- The method `net.IP.String` on a 4-byte address: dotted decimal. The addresses the
program prints are the 4-byte slices `ipHeader[12:16]` and `ipHeader[16:20]`; for every
other length the result is left as `?`. -/
def IPString (ip : IP) : GoString :=
  match ip with
  | [a, b, c, d] =>
    str (toString a.val) ++ str "." ++ str (toString b.val) ++ str "." ++
      str (toString c.val) ++ str "." ++ str (toString d.val)
  | _ => str "?"

/-- The loop of `net.CIDRMask` over the `l` bytes still to fill, `n` one-bits still to
place. -/
def cidrMaskLoop : Nat → Nat → List Byte
  | 0, _ => []
  | l + 1, n =>
    if n ≥ 8 then 0xff :: cidrMaskLoop l (n - 8)
    else Fin.ofNat (255 - (255 >>> n)) :: cidrMaskLoop l 0

/-- The function `net.CIDRMask`; the `nil` mask is the empty list. -/
def CIDRMask (ones bits : Nat) : List Byte :=
  if bits ≠ 32 ∧ bits ≠ 128 then []
  else if ones > bits then []
  else cidrMaskLoop (bits / 8) ones

/-- Go `net.IPNet`. -/
structure IPNet where
  IP : IP
  Mask : List Byte

/-- The function `networkNumberAndMask` of package `net`; `nil, nil` is `([], [])`. -/
def networkNumberAndMask (n : IPNet) : IP × List Byte :=
  let ip? : Option IP :=
    match To4 n.IP with
    | some x => some x
    | none => if n.IP.length ≠ 16 then none else some n.IP
  match ip? with
  | none => ([], [])
  | some ip =>
    if n.Mask.length = 4 then
      if ip.length ≠ 4 then ([], []) else (ip, n.Mask)
    else if n.Mask.length = 16 then
      if ip.length = 4 then (ip, n.Mask.drop 12) else (ip, n.Mask)
    else ([], [])

/-- The method `net.IPNet.Contains`: the address, in 4-byte form when it has one, agrees
with the network number on every masked byte. -/
def IPNetContains (n : IPNet) (ip : IP) : Bool :=
  let nm := networkNumberAndMask n
  let ip := (To4 ip).getD ip
  if ip.length ≠ nm.1.length then false
  else ((nm.1.zip nm.2).zip ip).all
    (fun x => x.1.1.val &&& x.1.2.val == x.2.val &&& x.1.2.val)

/-- Source: the table `privateCIDRs` of `isPrivateIP`. -/
def privateCIDRs : List IPNet :=
  [ { IP := [10, 0, 0, 0], Mask := CIDRMask 8 32 },
    { IP := [172, 16, 0, 0], Mask := CIDRMask 12 32 },
    { IP := [192, 168, 0, 0], Mask := CIDRMask 16 32 } ]

/-- Source: `isPrivateIP`. -/
def isPrivateIP (ip : IP) : Bool :=
  privateCIDRs.any (fun cidr => IPNetContains cidr ip)

/-! ## Geolocation -/

/-- The fields of a `geoip2.City` record that `getGeoLocation` reads. -/
structure City where
  /-- Lookup `record.Country.Names["en"]`. -/
  countryEn : Option GoString
  /-- Lookup `Names["en"]` of each element of `record.Subdivisions`. -/
  subdivisionsEn : List (Option GoString)
  /-- Lookup `record.City.Names["en"]`. -/
  cityEn : Option GoString
  latitude : Float64
  longitude : Float64

/-- The geolocation database: `db.City(ip)`, `none` when it returns an error. -/
abbrev GeoDB := IP → Option City

/-- The function `strings.Trim` with an ASCII cutset: leading and trailing bytes of the
cutset are removed. -/
def Trim (s cutset : GoString) : GoString :=
  ((s.dropWhile (fun b => cutset.contains b)).reverse.dropWhile
    (fun b => cutset.contains b)).reverse

/-- Source: `getGeoLocation`. -/
def getGeoLocation (db : GeoDB) (ip : IP) : GoString × Float64 × Float64 :=
  if isPrivateIP ip then (str "Private Address", 0, 0)
  else
    match db ip with
    | none => (str "Unknown", 0, 0)
    | some record =>
      let country : GoString := record.countryEn.getD []
      let region : GoString :=
        match record.subdivisionsEn with
        | first :: _ => first.getD []
        | [] => []
      let city : GoString := record.cityEn.getD []
      let location :=
        Trim (city ++ str ", " ++ region ++ str ", " ++ country) (str ", ")
      (location, record.latitude, record.longitude)

/-! ## The loop body -/

/-- Source: `FiveTuple`. -/
structure FiveTuple where
  Protocol : GoString
  App : GoString
  SrcIP : GoString
  SrcPort : Nat
  SrcLocation : GoString
  SrcLat : Float64
  SrcLon : Float64
  DstIP : GoString
  DstPort : Nat
  DstLocation : GoString
  DstLat : Float64
  DstLon : Float64
  deriving DecidableEq

/-- Source: the body of the loop of `main` on one decoded frame `data`, from
`if len(data) < 34` to the assembly of `tuple`. The result is the tuple handed to
`json.Marshal` and `rdb.Publish`, or the reason why none is assembled; nothing is
published unless a tuple is assembled. -/
def processFrame (db : GeoDB) (data : List Byte) : Except Halt FiveTuple := do
  if data.length < 34 then
    throw (Halt.skip Reject.tooShort)
  else
  let ethType ← Uint16 (← slice data 12 14)
  if ethType ≠ 0x0800 then
    throw (Halt.skip Reject.etherType)
  else
  let ipHeader ← sliceFrom data 14
  let ipVersion := (← index ipHeader 0).val >>> 4
  if ipVersion ≠ 4 then
    throw (Halt.skip Reject.ipVersion)
  else
  let ihl := ((← index ipHeader 0).val &&& 0x0F) * 4
  if ipHeader.length < ihl + 4 then
    throw (Halt.skip Reject.headerLength)
  else
  let proto ← index ipHeader 9
  let srcIP ← slice ipHeader 12 16
  let dstIP ← slice ipHeader 16 20
  if IPEqual srcIP IPv4bcast || IPEqual dstIP IPv4bcast then
    throw (Halt.skip Reject.broadcast)
  else
  if isPrivateIP srcIP && isPrivateIP dstIP then
    throw (Halt.skip Reject.bothPrivate)
  else
  if proto.val ≠ 6 ∧ proto.val ≠ 17 then
    throw (Halt.skip Reject.transport)
  else
  let src := getGeoLocation db srcIP
  let dst := getGeoLocation db dstIP
  let transHeader ← sliceFrom ipHeader ihl
  if transHeader.length < 4 then
    throw (Halt.skip Reject.transHeader)
  else
  let srcPort ← Uint16 (← slice transHeader 0 2)
  let dstPort ← Uint16 (← slice transHeader 2 4)
  let payload ← sliceFrom transHeader 4
  let payloadStr : GoString := if utf8Valid payload then payload else []
  let appProto := DetectApplicationProtocol proto.val srcPort dstPort payloadStr
  return {
    Protocol := protocolName proto.val
    App := appProto
    SrcIP := IPString srcIP
    SrcPort := srcPort
    SrcLocation := src.1
    SrcLat := src.2.1
    SrcLon := src.2.2
    DstIP := IPString dstIP
    DstPort := dstPort
    DstLocation := dst.1
    DstLat := dst.2.1
    DstLon := dst.2.2 }

/-! ## Views of a frame

Names for the parts of a frame the loop body reads, used to state its properties. -/

/-- Byte `i` of a frame; `0` beyond its end. -/
def byteAt (f : List Byte) (i : Nat) : Byte := f.getD i 0

/-- The source address `ipHeader[12:16]`, bytes 26..29 of the frame. -/
def srcAddr (f : List Byte) : IP := [byteAt f 26, byteAt f 27, byteAt f 28, byteAt f 29]

/-- The destination address `ipHeader[16:20]`, bytes 30..33 of the frame. -/
def dstAddr (f : List Byte) : IP := [byteAt f 30, byteAt f 31, byteAt f 32, byteAt f 33]

/-- The value `ihl` of the loop body: the low nibble of byte 14, times 4. -/
def headerLen (f : List Byte) : Nat := ((byteAt f 14).val % 16) * 4

/-- The tuple the loop body assembles from a frame that passes all its checks, with every
slice written as a view of the frame. -/
def assemble (db : GeoDB) (f : List Byte) : FiveTuple :=
  let t := f.drop (14 + headerLen f)
  let srcPort := 256 * (byteAt t 0).val + (byteAt t 1).val
  let dstPort := 256 * (byteAt t 2).val + (byteAt t 3).val
  let payload := t.drop 4
  { Protocol := protocolName (byteAt f 23).val
    App := DetectApplicationProtocol (byteAt f 23).val srcPort dstPort
      (if utf8Valid payload then payload else [])
    SrcIP := IPString (srcAddr f)
    SrcPort := srcPort
    SrcLocation := (getGeoLocation db (srcAddr f)).1
    SrcLat := (getGeoLocation db (srcAddr f)).2.1
    SrcLon := (getGeoLocation db (srcAddr f)).2.2
    DstIP := IPString (dstAddr f)
    DstPort := dstPort
    DstLocation := (getGeoLocation db (dstAddr f)).1
    DstLat := (getGeoLocation db (dstAddr f)).2.1
    DstLon := (getGeoLocation db (dstAddr f)).2.2 }

/-! ## The classifier as the specification words it

Section 4.4 of the specification: an ordered list of (test, label) rules, the first rule
whose test holds gives the label. "Begins with" is `List.IsPrefix`, "contains" is
`List.IsInfix`. -/

/-- Specification, TCP rules in order: FTP, SMTP, HTTP. -/
def specRulesTCP (srcPort dstPort : Nat) (text : GoString) : List (Bool × GoString) :=
  [ (decide (srcPort = 21 ∨ dstPort = 21 ∨ str "USER " <+: text ∨ str "PASS " <+: text),
      str "FTP"),
    (decide (srcPort = 25 ∨ dstPort = 25 ∨ str "HELO" <+: text ∨ str "MAIL FROM" <+: text ∨
        str "RCPT TO" <+: text),
      str "SMTP"),
    (decide (str "GET " <+: text ∨ str "POST " <+: text ∨ str "HEAD " <+: text ∨
        str "HTTP/" <:+: text),
      str "HTTP") ]

/-- Specification, UDP rules in order: DNS. -/
def specRulesUDP (srcPort dstPort : Nat) : List (Bool × GoString) :=
  [ (decide (srcPort = 53 ∨ dstPort = 53), str "DNS") ]

/-- Specification: first match wins, otherwise the generic label. -/
def specFirstMatch : List (Bool × GoString) → GoString → GoString
  | [], generic => generic
  | (test, label) :: rules, generic => if test then label else specFirstMatch rules generic

/-- Specification of the classifier for TCP (protocol number 6). -/
def specClassifyTCP (srcPort dstPort : Nat) (text : GoString) : GoString :=
  specFirstMatch (specRulesTCP srcPort dstPort text) (str "TCP_CONN")

/-- Specification of the classifier for UDP (protocol number 17). -/
def specClassifyUDP (srcPort dstPort : Nat) : GoString :=
  specFirstMatch (specRulesUDP srcPort dstPort) (str "UDP_PACKET")

/-! ## Concrete frames -/

/-- An Ethernet frame carrying an IPv4 packet with a 20-byte header (IHL = 5): addresses
`src` and `dst` (4 bytes each), protocol byte `proto`, and `transport` as the bytes after
the IPv4 header. The total-length, identification and checksum bytes are constants (the
right ones for `httpGetFrame`); the loop body reads none of them when IHL = 5. -/
def ipv4Frame (proto : Byte) (src dst : List Byte) (transport : List Byte) : List Byte :=
  [0x00, 0x11, 0x22, 0x33, 0x44, 0x55, 0x66, 0x77, 0x88, 0x99, 0xAA, 0xBB, 0x08, 0x00] ++
  [0x45, 0, 0, 54, 0x1C, 0x46, 0x40, 0, 64, proto, 0x26, 0xEF] ++ src ++ dst ++ transport

/-- A TCP segment from port 51820 to port 80 with payload `GET / HTTP/1.1`; `rest` is the
16 bytes of the TCP header after the two ports (sequence number, acknowledgement number,
data offset and flags, window, checksum, urgent pointer). -/
def httpGetSegment (rest : List Byte) : List Byte :=
  [0xCA, 0x6C, 0x00, 0x50] ++ rest ++ str "GET / HTTP/1.1"

/-- A valid frame 192.168.1.10:51820 → 93.184.216.34:80 carrying `GET / HTTP/1.1`, with
sequence number 0x9E3779B9, acknowledgement number 1, flags PSH+ACK, window 64240 and
correct IPv4 and TCP checksums. -/
def httpGetFrame : List Byte :=
  ipv4Frame 6 [192, 168, 1, 10] [93, 184, 216, 34]
    (httpGetSegment [0x9E, 0x37, 0x79, 0xB9, 0, 0, 0, 1, 0x50, 0x18, 0xFA, 0xF0, 0x16, 0x05, 0, 0])

/-- A geolocation database in which every lookup fails. -/
def emptyDB : GeoDB := fun _ => none

/-- A UDP datagram (ports, length, checksum, then `payload`). -/
def udpDatagram (srcPort dstPort : Nat) (payload : List Byte) : List Byte :=
  [Fin.ofNat (srcPort / 256), Fin.ofNat srcPort, Fin.ofNat (dstPort / 256), Fin.ofNat dstPort,
    0, Fin.ofNat (8 + payload.length), 0, 0] ++ payload

/-- A frame between two private hosts, 10.0.0.5 → 192.168.1.2. -/
def privateFrame : List Byte :=
  ipv4Frame 17 [10, 0, 0, 5] [192, 168, 1, 2] (udpDatagram 5000 6000 [1, 2, 3, 4])

/-- A DNS query from a private host to a public resolver, 10.0.0.5 → 8.8.8.8. -/
def outboundFrame : List Byte :=
  ipv4Frame 17 [10, 0, 0, 5] [8, 8, 8, 8] (udpDatagram 40000 53 [0x12, 0x34, 1, 0, 0, 1])

/-- A DHCP discover, 0.0.0.0:68 → 255.255.255.255:67. -/
def broadcastFrame : List Byte :=
  ipv4Frame 17 [0, 0, 0, 0] [255, 255, 255, 255] (udpDatagram 68 67 [1, 1, 6, 0])

/-- A frame cut off after 33 bytes, one byte before the end of the IPv4 header. -/
def truncatedFrame : List Byte := outboundFrame.take 33

/-- An ARP request (ethertype 0x0806), padded to the minimum Ethernet frame length. -/
def arpFrame : List Byte :=
  [0xFF, 0xFF, 0xFF, 0xFF, 0xFF, 0xFF, 0x66, 0x77, 0x88, 0x99, 0xAA, 0xBB, 0x08, 0x06] ++
  [0, 1, 8, 0, 6, 4, 0, 1, 0x66, 0x77, 0x88, 0x99, 0xAA, 0xBB, 10, 0, 0, 5,
    0, 0, 0, 0, 0, 0, 10, 0, 0, 1] ++ List.replicate 18 0

/-- A frame 10.0.0.5 → 8.8.8.8 with protocol byte 17 whose first IPv4 byte is 0x40:
version 4 with a header-length nibble of 0. -/
def zeroIhlFrame : List Byte :=
  [0x00, 0x11, 0x22, 0x33, 0x44, 0x55, 0x66, 0x77, 0x88, 0x99, 0xAA, 0xBB, 0x08, 0x00] ++
  [0x40, 0x07, 0x00, 0x1C, 0, 0, 0, 0, 64, 17, 0, 0, 10, 0, 0, 5, 8, 8, 8, 8] ++
  udpDatagram 40000 53 []

/-- A geolocation database whose every lookup succeeds with city `A`, no subdivision and
country `B`. -/
def cityCountryDB : GeoDB := fun _ =>
  some { countryEn := some (str "B"), subdivisionsEn := [], cityEn := some (str "A"),
         latitude := 0, longitude := 0 }

/-! ## The loop body around the geolocation calls -/

/-- The test `math.IsNaN(f) || math.IsInf(f, 0)` on the bit pattern of a `float64`: the
eleven exponent bits (bits 52..62) are all set. -/
def isNaNOrInf (x : Float64) : Bool := (x / 2 ^ 52) % 2048 == 2047

/-- The function `json.Marshal` on a `FiveTuple`, as whether it returns no error: package
`encoding/json` refuses a `float64` that is NaN or infinite (`UnsupportedValueError`) and
encodes every string and every `uint16`. -/
def marshalOK (t : FiveTuple) : Bool :=
  !(isNaNOrInf t.SrcLat || isNaNOrInf t.SrcLon || isNaNOrInf t.DstLat || isNaNOrInf t.DstLon)

/-- The message bus as the loop body sees it: whether `rdb.Publish(...).Err()` is nil for
the encoding of a tuple. -/
abbrev Bus := FiveTuple → Bool

/-- What one pass of the loop body does with a frame. -/
inductive Emission where
  | nothing (h : Halt)              -- no tuple is assembled
  | encodeError (t : FiveTuple)     -- `json.Marshal` fails: logged, `continue`
  | publishError (t : FiveTuple)    -- `rdb.Publish` fails: logged
  | published (t : FiveTuple)       -- the encoding of the tuple is published
  deriving DecidableEq

/-- Source: the whole body of the loop of `main` on one decoded frame, from
`if len(data) < 34` to the end: the tuple of `processFrame`, then `json.Marshal` and
`rdb.Publish`. -/
def loopBody (db : GeoDB) (bus : Bus) (data : List Byte) : Emission :=
  match processFrame db data with
  | .error h => .nothing h
  | .ok tuple =>
    if marshalOK tuple then
      if bus tuple then .published tuple else .publishError tuple
    else .encodeError tuple

/-- A geolocation database whose every lookup succeeds with no names, latitude NaN (bit
pattern 0x7FF8000000000000) and longitude 0. -/
def nanDB : GeoDB := fun _ =>
  some { countryEn := none, subdivisionsEn := [], cityEn := none,
         latitude := 0x7FF8000000000000, longitude := 0 }

/-- A message bus on which every publish succeeds. -/
def okBus : Bus := fun _ => true

/-- A message bus on which every publish fails. -/
def downBus : Bus := fun _ => false

/-! ## Interface selection (captrue.go) -/

/-- Go `net.Interface`, the fields `getActiveInterface` reads. -/
structure Interface where
  Name : GoString
  Flags : Nat
  deriving DecidableEq

/-- The constant `net.FlagUp`, `1 << 0`. -/
def FlagUp : Nat := 1

/-- The constant `net.FlagLoopback`, `1 << 2`. -/
def FlagLoopback : Nat := 4

/-- What `getActiveInterface` reads from the machine it runs on. -/
structure Host where
  /-- Result of `net.Interfaces()`, `none` when it returns an error. -/
  interfaces : Option (List Interface)
  /-- Number of addresses `iface.Addrs()` returns, `none` when it returns an error. -/
  addrs : Interface → Option Nat
  /-- Whether `os.Stat` of a path succeeds. -/
  stat : GoString → Bool

/-- Source: the table `virtualPrefixes` of `isVirtualInterface`. -/
def virtualPrefixes : List GoString :=
  [str "docker", str "br-", str "virbr", str "veth", str "vmnet", str "tun", str "tap",
    str "lo"]

/-- Source: the loop of `isVirtualInterface` over the table. -/
def isVirtualLoop (name : GoString) : List GoString → Bool
  | [] => false
  | p :: rest => if HasPrefix name p then true else isVirtualLoop name rest

/-- Source: `isVirtualInterface`. -/
def isVirtualInterface (name : GoString) : Bool :=
  isVirtualLoop name virtualPrefixes

/-- Source: `isPhysicalInterface`. -/
def isPhysicalInterface (host : Host) (name : GoString) : Bool :=
  host.stat (str "/sys/class/net/" ++ name ++ str "/device")

/-- Source: the loop of `getActiveInterface` over the interfaces. -/
def selectLoop (host : Host) : List Interface → Option Interface
  | [] => none
  | iface :: rest =>
    if (iface.Flags &&& FlagLoopback == 0) && (iface.Flags &&& FlagUp != 0) &&
        !isVirtualInterface iface.Name && isPhysicalInterface host iface.Name then
      match host.addrs iface with
      | some n => if n > 0 then some iface else selectLoop host rest
      | none => selectLoop host rest
    else selectLoop host rest

/-- Source: `getActiveInterface`; `none` is the error result. -/
def getActiveInterface (host : Host) : Option Interface :=
  match host.interfaces with
  | none => none
  | some ifaces => selectLoop host ifaces

/-- A machine with a Docker bridge (up, broadcast, multicast), the loopback interface (up,
loopback, running) and one Ethernet card (up, broadcast, multicast, running). -/
def sampleHost : Host where
  interfaces := some
    [ { Name := str "docker0", Flags := 19 }, { Name := str "lo", Flags := 37 },
      { Name := str "enp3s0", Flags := 51 } ]
  addrs := fun _ => some 2
  stat := fun path => path == str "/sys/class/net/enp3s0/device"

/-! ## Slices and bytes -/

theorem index_ok (s : List Byte) (i : Nat) (h : i < s.length) :
    index s i = .ok (s.getD i 0) := by
  simp [index, List.getD, List.getElem?_eq_getElem h]

theorem slice_ok (s : List Byte) (lo hi : Nat) (h1 : lo ≤ hi) (h2 : hi ≤ s.length) :
    slice s lo hi = .ok ((s.drop lo).take (hi - lo)) := by
  simp [slice, h1, h2]

theorem sliceFrom_ok (s : List Byte) (lo : Nat) (h : lo ≤ s.length) :
    sliceFrom s lo = .ok (s.drop lo) := by
  simp [sliceFrom, h]

theorem take_two_drop (s : List Byte) (i : Nat) (h : i + 2 ≤ s.length) :
    (s.drop i).take 2 = [s.getD i 0, s.getD (i + 1) 0] := by
  apply List.ext_getElem
  · simp; omega
  · intro n h1 h2
    simp at h1 h2
    have : n = 0 ∨ n = 1 := by omega
    rcases this with rfl | rfl <;> simp [List.getD, List.getElem?_eq_getElem, (by omega : i < s.length), (by omega : i + 1 < s.length)]

theorem be16 (b0 b1 : Byte) : (b1.val ||| (b0.val <<< 8)) % 65536 = 256 * b0.val + b1.val := by
  have h0 := b0.isLt
  have h1 := b1.isLt
  have h := Nat.mul_add_lt_is_or (i := 8) (b := b1.val) (by simp) b0.val
  rw [Nat.lor_comm, Nat.shiftLeft_eq, Nat.mul_comm, ← h]
  omega

theorem Uint16_pair (b0 b1 : Byte) : Uint16 [b0, b1] = .ok (256 * b0.val + b1.val) := by
  simp [Uint16, index, be16]

theorem byte_shr4 (b : Byte) : b.val >>> 4 = b.val / 16 := by
  simp [Nat.shiftRight_eq_div_pow]
theorem byte_and15 (b : Byte) : b.val &&& 0x0F = b.val % 16 := by
  exact Nat.and_pow_two_sub_one_eq_mod b.val 4

theorem take_four_drop (s : List Byte) (i : Nat) (h : i + 4 ≤ s.length) :
    (s.drop i).take 4 = [s.getD i 0, s.getD (i + 1) 0, s.getD (i + 2) 0, s.getD (i + 3) 0] := by
  apply List.ext_getElem
  · simp; omega
  · intro n h1 h2
    simp at h1 h2
    have : n = 0 ∨ n = 1 ∨ n = 2 ∨ n = 3 := by omega
    rcases this with rfl | rfl | rfl | rfl <;>
      simp [List.getD, List.getElem?_eq_getElem, (by omega : i < s.length),
        (by omega : i + 1 < s.length), (by omega : i + 2 < s.length), (by omega : i + 3 < s.length)]

theorem bind_ok {α β : Type} (a : α) (f : α → Except Halt β) :
    (Except.ok a >>= f) = f a := rfl

theorem getD_drop (s : List Byte) (i j : Nat) : (s.drop i).getD j 0 = s.getD (i + j) 0 := by
  simp [List.getD, List.getElem?_drop]

theorem throw_eq {α : Type} (e : Halt) : (throw e : Except Halt α) = .error e := rfl

theorem pure_eq {α : Type} (a : α) : (pure a : Except Halt α) = .ok a := rfl

theorem processFrame_eq (db : GeoDB) (data : List Byte) (h : 34 ≤ data.length) :
    processFrame db data =
      if 256 * (byteAt data 12).val + (byteAt data 13).val ≠ 0x0800 then
        .error (.skip .etherType)
      else if (byteAt data 14).val / 16 ≠ 4 then .error (.skip .ipVersion)
      else if data.length - 14 < headerLen data + 4 then .error (.skip .headerLength)
      else if IPEqual (srcAddr data) IPv4bcast || IPEqual (dstAddr data) IPv4bcast then
        .error (.skip .broadcast)
      else if isPrivateIP (srcAddr data) && isPrivateIP (dstAddr data) then
        .error (.skip .bothPrivate)
      else if (byteAt data 23).val ≠ 6 ∧ (byteAt data 23).val ≠ 17 then
        .error (.skip .transport)
      else .ok (assemble db data) := by
  have h' : ¬ data.length < 34 := by omega
  simp only [processFrame, h', ↓reduceIte]
  rw [slice_ok data 12 14 (by omega) (by omega), bind_ok, take_two_drop data 12 (by omega),
    Uint16_pair, bind_ok, sliceFrom_ok data 14 (by omega), bind_ok,
    index_ok _ 0 (by simp; omega), bind_ok, bind_ok, getD_drop, byte_shr4, byte_and15,
    index_ok _ 9 (by simp; omega), bind_ok, getD_drop,
    slice_ok _ 12 16 (by omega) (by simp; omega), bind_ok,
    slice_ok _ 16 20 (by omega) (by simp; omega), bind_ok, List.drop_drop, List.drop_drop,
    take_four_drop data 26 (by omega), take_four_drop data 30 (by omega)]
  simp only [List.length_drop, throw_eq, Nat.add_zero, Nat.reduceAdd]
  show _ = (if 256 * (byteAt data 12).val + (byteAt data 13).val ≠ 0x0800 then _ else _)
  unfold headerLen srcAddr dstAddr byteAt
  by_cases c1 : 256 * (data.getD 12 0).val + (data.getD 13 0).val ≠ 2048
  · rw [if_pos c1, if_pos c1]
  rw [if_neg c1, if_neg c1]
  by_cases c2 : (data.getD 14 0).val / 16 ≠ 4
  · rw [if_pos c2, if_pos c2]
  rw [if_neg c2, if_neg c2]
  by_cases c3 : data.length - 14 < (data.getD 14 0).val % 16 * 4 + 4
  · rw [if_pos c3, if_pos c3]
  rw [if_neg c3, if_neg c3]
  split
  · rfl
  split
  · rfl
  split
  · rfl
  rw [sliceFrom_ok _ _ (by rw [List.length_drop]; omega), bind_ok, List.drop_drop]
  have h4 : ¬ (List.drop (14 + (data.getD 14 0).val % 16 * 4) data).length < 4 := by
    rw [List.length_drop]; omega
  rw [if_neg h4, slice_ok _ 0 2 (by omega) (by rw [List.length_drop]; omega), bind_ok,
    take_two_drop _ 0 (by rw [List.length_drop]; omega), Uint16_pair, bind_ok,
    slice_ok _ 2 4 (by omega) (by rw [List.length_drop]; omega), bind_ok,
    take_two_drop _ 2 (by rw [List.length_drop]; omega), Uint16_pair, bind_ok,
    sliceFrom_ok _ 4 (by rw [List.length_drop]; omega), bind_ok, pure_eq]
  rfl

theorem mask8 : CIDRMask 8 32 = [255, 0, 0, 0] := by decide
theorem mask12 : CIDRMask 12 32 = [255, 240, 0, 0] := by decide
theorem mask16 : CIDRMask 16 32 = [255, 255, 0, 0] := by decide


set_option maxRecDepth 100000 in
theorem net10 (a : Byte) :
    ((10 : Byte).val &&& (255 : Byte).val = a.val &&& (255 : Byte).val) ↔ a.val = 10 := by
  revert a; decide

set_option maxRecDepth 100000 in
theorem net172 (a : Byte) :
    ((172 : Byte).val &&& (255 : Byte).val = a.val &&& (255 : Byte).val) ↔ a.val = 172 := by
  revert a; decide

set_option maxRecDepth 100000 in
theorem net192 (a : Byte) :
    ((192 : Byte).val &&& (255 : Byte).val = a.val &&& (255 : Byte).val) ↔ a.val = 192 := by
  revert a; decide

set_option maxRecDepth 100000 in
theorem net168 (a : Byte) :
    ((168 : Byte).val &&& (255 : Byte).val = a.val &&& (255 : Byte).val) ↔ a.val = 168 := by
  revert a; decide

set_option maxRecDepth 100000 in
theorem net16 (b : Byte) :
    ((16 : Byte).val &&& (240 : Byte).val = b.val &&& (240 : Byte).val) ↔
      (16 ≤ b.val ∧ b.val ≤ 31) := by
  revert b; decide

theorem isPrivateIP_quad (a b c d : Byte) :
    isPrivateIP [a, b, c, d] = true ↔
      (a.val = 10 ∨ (a.val = 172 ∧ 16 ≤ b.val ∧ b.val ≤ 31) ∨ (a.val = 192 ∧ b.val = 168)) := by
  simp [isPrivateIP, privateCIDRs, IPNetContains, networkNumberAndMask, To4, mask8, mask12,
    mask16, net10, net172, net192, net168, net16]

theorem IPEqual_bcast_quad (a b c d : Byte) :
    IPEqual [a, b, c, d] IPv4bcast = true ↔
      (a.val = 255 ∧ b.val = 255 ∧ c.val = 255 ∧ d.val = 255) := by
  simp [IPEqual, IPv4bcast, IPv4, v4InV6Prefix, Fin.ext_iff]
  exact Iff.rfl

theorem processFrame_short (db : GeoDB) (data : List Byte) (h : data.length < 34) :
    processFrame db data = .error (.skip .tooShort) := by
  simp only [processFrame, h, ↓reduceIte]
  rfl

/-- The conditions under which the loop body reaches the assembly of the tuple. -/
theorem processFrame_ok_iff (db : GeoDB) (data : List Byte) (t : FiveTuple) :
    processFrame db data = .ok t ↔
      (34 ≤ data.length ∧
        256 * (byteAt data 12).val + (byteAt data 13).val = 0x0800 ∧
        (byteAt data 14).val / 16 = 4 ∧
        headerLen data + 4 ≤ data.length - 14 ∧
        IPEqual (srcAddr data) IPv4bcast = false ∧
        IPEqual (dstAddr data) IPv4bcast = false ∧
        ¬ (isPrivateIP (srcAddr data) = true ∧ isPrivateIP (dstAddr data) = true) ∧
        ((byteAt data 23).val = 6 ∨ (byteAt data 23).val = 17) ∧
        t = assemble db data) := by
  by_cases h : 34 ≤ data.length
  · rw [processFrame_eq db data h]
    split_ifs with c1 c2 c3 c4 c5 c6
    · simp; intros; omega
    · simp; intros; omega
    · simp; intros; omega
    · simp at c4 ⊢
      intro _ _ _ _ h1 h2
      rcases c4 with c4 | c4 <;> simp_all
    · simp at c5 ⊢
      intro _ _ _ _ _ _ h1
      have := h1 c5.1
      simp [c5.2] at this
    · simp; intros; omega
    · simp at c1 c2 c3 c4 c5 c6
      constructor
      · intro e
        cases e
        refine ⟨h, c1, c2, c3, c4.1, c4.2, ?_, ?_, rfl⟩
        · simpa using c5
        · omega
      · rintro ⟨_, _, _, _, _, _, _, _, rfl⟩
        rfl
  · rw [processFrame_short db data (by omega)]
    simp
    intro h'
    omega

/-! ## The classifier against its specification -/

theorem HasPrefix_iff (s p : GoString) : HasPrefix s p = true ↔ p <+: s := by
  simp only [HasPrefix, Bool.and_eq_true, decide_eq_true_eq, beq_iff_eq,
    List.prefix_iff_eq_take]
  constructor
  · rintro ⟨_, h⟩
    exact h.symm
  · intro h
    refine ⟨?_, h.symm⟩
    have := congrArg List.length h
    simp at this
    omega

theorem Contains_iff (s sub : GoString) : Contains s sub = true ↔ sub <:+: s := by
  induction s with
  | nil =>
    rw [Contains, HasPrefix_iff]
    simp
  | cons b s ih =>
    rw [Contains, Bool.or_eq_true, HasPrefix_iff, ih, List.infix_cons_iff]

theorem isFTP_iff (data : GoString) (s d : Nat) :
    isFTP data s d = true ↔
      (s = 21 ∨ d = 21 ∨ str "USER " <+: data ∨ str "PASS " <+: data) := by
  simp [isFTP, HasPrefix_iff, or_assoc]

theorem isSMTP_iff (data : GoString) (s d : Nat) :
    isSMTP data s d = true ↔
      (s = 25 ∨ d = 25 ∨ str "HELO" <+: data ∨ str "MAIL FROM" <+: data ∨
        str "RCPT TO" <+: data) := by
  simp [isSMTP, HasPrefix_iff, or_assoc]

theorem isHTTP_iff (data : GoString) (s d : Nat) :
    isHTTP data s d = true ↔
      (str "GET " <+: data ∨ str "POST " <+: data ∨ str "HEAD " <+: data ∨
        str "HTTP/" <:+: data) := by
  simp [isHTTP, HasPrefix_iff, Contains_iff, or_assoc]

/-- The loop body ends in a `continue` or in an assembled tuple. -/
theorem skip_or_ok (db : GeoDB) (f : List Byte) :
    (∃ r, processFrame db f = .error (.skip r)) ∨ (∃ t, processFrame db f = .ok t) := by
  by_cases h : 34 ≤ f.length
  · rw [processFrame_eq db f h]
    split_ifs <;> simp
  · rw [processFrame_short db f (by omega)]
    simp

/-! ## Claims -/

/-- C1: for every database and every byte sequence `f` taken as a decoded frame, the loop
body assembles a tuple if and only if `len(f) >= 34`, bytes 12-13 read big-endian are
`0x0800`, the high nibble of `f[14]` is 4, `len(f) - 14 >= ihl + 4` with
`ihl = (f[14] & 0x0F) * 4`, the protocol byte `f[23]` is 6 or 17, neither `f[26..29]` nor
`f[30..33]` is 255.255.255.255, and the two addresses are not both private. -/
theorem C1_record_iff (db : GeoDB) (f : List Byte) :
    (∃ t, processFrame db f = .ok t) ↔
      (34 ≤ f.length ∧
        256 * (byteAt f 12).val + (byteAt f 13).val = 0x0800 ∧
        (byteAt f 14).val >>> 4 = 4 ∧
        ((byteAt f 14).val &&& 0x0F) * 4 + 4 ≤ f.length - 14 ∧
        ((byteAt f 23).val = 6 ∨ (byteAt f 23).val = 17) ∧
        ¬ ((byteAt f 26).val = 255 ∧ (byteAt f 27).val = 255 ∧ (byteAt f 28).val = 255 ∧
            (byteAt f 29).val = 255) ∧
        ¬ ((byteAt f 30).val = 255 ∧ (byteAt f 31).val = 255 ∧ (byteAt f 32).val = 255 ∧
            (byteAt f 33).val = 255) ∧
        ¬ (((byteAt f 26).val = 10 ∨
              ((byteAt f 26).val = 172 ∧ 16 ≤ (byteAt f 27).val ∧ (byteAt f 27).val ≤ 31) ∨
              ((byteAt f 26).val = 192 ∧ (byteAt f 27).val = 168)) ∧
            ((byteAt f 30).val = 10 ∨
              ((byteAt f 30).val = 172 ∧ 16 ≤ (byteAt f 31).val ∧ (byteAt f 31).val ≤ 31) ∨
              ((byteAt f 30).val = 192 ∧ (byteAt f 31).val = 168)))) := by
  have hs := isPrivateIP_quad (byteAt f 26) (byteAt f 27) (byteAt f 28) (byteAt f 29)
  have hd := isPrivateIP_quad (byteAt f 30) (byteAt f 31) (byteAt f 32) (byteAt f 33)
  have bs := IPEqual_bcast_quad (byteAt f 26) (byteAt f 27) (byteAt f 28) (byteAt f 29)
  have bd := IPEqual_bcast_quad (byteAt f 30) (byteAt f 31) (byteAt f 32) (byteAt f 33)
  simp only [processFrame_ok_iff, srcAddr, dstAddr, headerLen, byte_shr4, byte_and15,
    ← hs, ← hd, ← bs, ← bd, Bool.not_eq_true]
  constructor
  · rintro ⟨t, h1, h2, h3, h4, h5, h6, h7, h8, -⟩
    exact ⟨h1, h2, h3, h4, h8, h5, h6, h7⟩
  · rintro ⟨h1, h2, h3, h4, h8, h5, h6, h7⟩
    exact ⟨_, h1, h2, h3, h4, h5, h6, h7, h8, rfl⟩


/-- C2: for every database and every byte sequence of every length, the loop body never
indexes or slices out of range: its outcome is never a panic, it is either one of the
`continue` rejections or an assembled tuple. -/
theorem C2_no_panic (db : GeoDB) (f : List Byte) :
    processFrame db f ≠ .error .panic ∧
      ((∃ r, processFrame db f = .error (.skip r)) ∨ (∃ t, processFrame db f = .ok t)) := by
  by_cases h : 34 ≤ f.length
  · rw [processFrame_eq db f h]
    split_ifs <;> simp
  · rw [processFrame_short db f (by omega)]
    simp

/-- C3 (failing input): on the valid frame `httpGetFrame`, a TCP segment
192.168.1.10:51820 → 93.184.216.34:80 with payload `GET / HTTP/1.1` and sequence number
0x9E3779B9, the loop body assembles a tuple with all the address, port and protocol fields
of the claim, but with application label `TCP_CONN` instead of `HTTP`: the text handed to
the classifier starts at the sequence number, which is not valid UTF-8 here. -/
theorem C3_http_get_labelled_tcp_conn (db : GeoDB) :
    ∃ t, processFrame db httpGetFrame = .ok t ∧
      t.Protocol = str "TCP" ∧ t.App = str "TCP_CONN" ∧ t.App ≠ str "HTTP" ∧
      t.SrcIP = str "192.168.1.10" ∧ t.SrcPort = 51820 ∧
      t.SrcLocation = str "Private Address" ∧
      t.DstIP = str "93.184.216.34" ∧ t.DstPort = 80 := by
  refine ⟨assemble db httpGetFrame, ?_, ?_⟩
  · rw [processFrame_ok_iff]
    refine ⟨by decide, by decide, by decide, by decide, by decide, by decide, by decide,
      by decide, rfl⟩
  · have e : (assemble db httpGetFrame).App = str "TCP_CONN" := rfl
    exact ⟨rfl, e, by rw [e]; decide, rfl, rfl, rfl, rfl, rfl⟩

/-- C4: the classifier equals the ordered first-match rule list of the specification: for
all ports and every payload text, with protocol 6 it returns the label of
`specClassifyTCP` (FTP, then SMTP, then HTTP, else `TCP_CONN`) and with protocol 17 the
label of `specClassifyUDP` (DNS, else `UDP_PACKET`). -/
theorem C4_classifier_refines_rules (srcPort dstPort : Nat) (data : GoString) :
    DetectApplicationProtocol 6 srcPort dstPort data = specClassifyTCP srcPort dstPort data ∧
      DetectApplicationProtocol 17 srcPort dstPort data = specClassifyUDP srcPort dstPort := by
  constructor
  · simp only [DetectApplicationProtocol, specClassifyTCP, specRulesTCP, specFirstMatch,
      ↓reduceIte, decide_eq_true_eq, ← isFTP_iff data srcPort dstPort,
      ← isSMTP_iff data srcPort dstPort, ← isHTTP_iff data srcPort dstPort]
  · simp [DetectApplicationProtocol, specClassifyUDP, specRulesUDP, specFirstMatch, isDNS]

/-- C5: for all ports and every payload text that begins with `USER `, the classifier with
protocol 6 returns `FTP` and not `HTTP`, whatever follows the prefix (in particular when
the text also contains `HTTP/`). -/
theorem C5_ftp_before_http (srcPort dstPort : Nat) (rest : GoString) :
    DetectApplicationProtocol 6 srcPort dstPort (str "USER " ++ rest) = str "FTP" ∧
      DetectApplicationProtocol 6 srcPort dstPort (str "USER " ++ rest) ≠ str "HTTP" := by
  have h : isFTP (str "USER " ++ rest) srcPort dstPort = true := by
    rw [isFTP_iff]
    exact Or.inr (Or.inr (Or.inl (List.prefix_append _ _)))
  have e : DetectApplicationProtocol 6 srcPort dstPort (str "USER " ++ rest) = str "FTP" := by
    simp [DetectApplicationProtocol, h]
  exact ⟨e, by rw [e]; decide⟩

/-- C6: for every payload text and all ports of which the source or the destination is 53,
the classifier with protocol 17 returns `DNS`. -/
theorem C6_dns_on_port_53 (srcPort dstPort : Nat) (data : GoString)
    (h : srcPort = 53 ∨ dstPort = 53) :
    DetectApplicationProtocol 17 srcPort dstPort data = str "DNS" := by
  rcases h with h | h <;> simp [DetectApplicationProtocol, isDNS, h]

/-- Witness of C6: source port 40000, destination port 53, a payload that is not a DNS
message. -/
theorem C6_dns_on_port_53_witness :
    DetectApplicationProtocol 17 40000 53 (str "GET / HTTP/1.1") = str "DNS" :=
  C6_dns_on_port_53 40000 53 (str "GET / HTTP/1.1") (Or.inr rfl)

/-- C7: for every database and every frame whose source address (bytes 26..29) and
destination address (bytes 30..33) both lie in 10.0.0.0/8, 172.16.0.0/12 or
192.168.0.0/16, the loop body assembles no tuple: it ends in a `continue`, whatever the
protocol byte, the ports and the payload are. -/
theorem C7_both_private_dropped (db : GeoDB) (f : List Byte)
    (hsrc : (byteAt f 26).val = 10 ∨
      ((byteAt f 26).val = 172 ∧ 16 ≤ (byteAt f 27).val ∧ (byteAt f 27).val ≤ 31) ∨
      ((byteAt f 26).val = 192 ∧ (byteAt f 27).val = 168))
    (hdst : (byteAt f 30).val = 10 ∨
      ((byteAt f 30).val = 172 ∧ 16 ≤ (byteAt f 31).val ∧ (byteAt f 31).val ≤ 31) ∨
      ((byteAt f 30).val = 192 ∧ (byteAt f 31).val = 168)) :
    (∃ r, processFrame db f = .error (.skip r)) ∧ ∀ t, processFrame db f ≠ .ok t := by
  have hs := (isPrivateIP_quad (byteAt f 26) (byteAt f 27) (byteAt f 28) (byteAt f 29)).2 hsrc
  have hd := (isPrivateIP_quad (byteAt f 30) (byteAt f 31) (byteAt f 32) (byteAt f 33)).2 hdst
  have hno : ∀ t, processFrame db f ≠ .ok t := by
    intro t e
    rw [processFrame_ok_iff] at e
    exact e.2.2.2.2.2.2.1 ⟨hs, hd⟩
  refine ⟨?_, hno⟩
  rcases (skip_or_ok db f) with ⟨r, hr⟩ | ⟨t, ht⟩
  · exact ⟨r, hr⟩
  · exact absurd ht (hno t)

/-- Witness of C7: the frame 10.0.0.5 → 192.168.1.2. -/
theorem C7_both_private_dropped_witness :
    (∃ r, processFrame emptyDB privateFrame = .error (.skip r)) ∧
      ∀ t, processFrame emptyDB privateFrame ≠ .ok t :=
  C7_both_private_dropped emptyDB privateFrame (by decide) (by decide)

/-- A frame that passes the decoder checks with protocol byte 6 or 17, a private source
address and a destination address that is neither private nor 255.255.255.255 yields a
tuple with source location `Private Address` and zero source coordinates. -/
theorem private_source_assembled (db : GeoDB) (f : List Byte)
    (hlen : 34 ≤ f.length)
    (heth : 256 * (byteAt f 12).val + (byteAt f 13).val = 0x0800)
    (hver : (byteAt f 14).val >>> 4 = 4)
    (hihl : ((byteAt f 14).val &&& 0x0F) * 4 + 4 ≤ f.length - 14)
    (hproto : (byteAt f 23).val = 6 ∨ (byteAt f 23).val = 17)
    (hsrc : (byteAt f 26).val = 10 ∨
      ((byteAt f 26).val = 172 ∧ 16 ≤ (byteAt f 27).val ∧ (byteAt f 27).val ≤ 31) ∨
      ((byteAt f 26).val = 192 ∧ (byteAt f 27).val = 168))
    (hdst : ¬ ((byteAt f 30).val = 10 ∨
      ((byteAt f 30).val = 172 ∧ 16 ≤ (byteAt f 31).val ∧ (byteAt f 31).val ≤ 31) ∨
      ((byteAt f 30).val = 192 ∧ (byteAt f 31).val = 168)))
    (hbc : ¬ ((byteAt f 30).val = 255 ∧ (byteAt f 31).val = 255 ∧ (byteAt f 32).val = 255 ∧
      (byteAt f 33).val = 255)) :
    ∃ t, processFrame db f = .ok t ∧
      t.SrcLocation = str "Private Address" ∧ t.SrcLat = 0 ∧ t.SrcLon = 0 := by
  have hs := (isPrivateIP_quad (byteAt f 26) (byteAt f 27) (byteAt f 28) (byteAt f 29)).2 hsrc
  have hd := (isPrivateIP_quad (byteAt f 30) (byteAt f 31) (byteAt f 32) (byteAt f 33)).not.2 hdst
  have bd := (IPEqual_bcast_quad (byteAt f 30) (byteAt f 31) (byteAt f 32) (byteAt f 33)).not.2 hbc
  have bs : ¬ IPEqual [byteAt f 26, byteAt f 27, byteAt f 28, byteAt f 29] IPv4bcast = true := by
    rw [IPEqual_bcast_quad]
    omega
  rw [byte_shr4] at hver
  rw [byte_and15] at hihl
  refine ⟨assemble db f, ?_, ?_⟩
  · rw [processFrame_ok_iff]
    refine ⟨hlen, heth, hver, hihl, ?_, ?_, ?_, hproto, rfl⟩
    · simpa [srcAddr] using bs
    · simpa [dstAddr] using bd
    · rintro ⟨-, h⟩
      exact hd h
  · have hs' : isPrivateIP (srcAddr f) = true := hs
    simp [assemble, getGeoLocation, hs']

/-- C9: for every database and every frame whose source address (bytes 26..29) or
destination address (bytes 30..33) is 255.255.255.255, the loop body assembles no tuple:
it ends in a `continue`, whatever the protocol byte, the other address, the ports and the
payload are. -/
theorem C9_broadcast_dropped (db : GeoDB) (f : List Byte)
    (h : ((byteAt f 26).val = 255 ∧ (byteAt f 27).val = 255 ∧ (byteAt f 28).val = 255 ∧
        (byteAt f 29).val = 255) ∨
      ((byteAt f 30).val = 255 ∧ (byteAt f 31).val = 255 ∧ (byteAt f 32).val = 255 ∧
        (byteAt f 33).val = 255)) :
    (∃ r, processFrame db f = .error (.skip r)) ∧ ∀ t, processFrame db f ≠ .ok t := by
  have hno : ∀ t, processFrame db f ≠ .ok t := by
    intro t e
    rw [processFrame_ok_iff] at e
    obtain ⟨-, -, -, -, e5, e6, -⟩ := e
    rcases h with h | h
    · have := (IPEqual_bcast_quad (byteAt f 26) (byteAt f 27) (byteAt f 28) (byteAt f 29)).2 h
      simp [srcAddr, this] at e5
    · have := (IPEqual_bcast_quad (byteAt f 30) (byteAt f 31) (byteAt f 32) (byteAt f 33)).2 h
      simp [dstAddr, this] at e6
  refine ⟨?_, hno⟩
  rcases (skip_or_ok db f) with ⟨r, hr⟩ | ⟨t, ht⟩
  · exact ⟨r, hr⟩
  · exact absurd ht (hno t)

/-- Witness of C9: a DHCP discover sent to 255.255.255.255. -/
theorem C9_broadcast_dropped_witness :
    (∃ r, processFrame emptyDB broadcastFrame = .error (.skip r)) ∧
      ∀ t, processFrame emptyDB broadcastFrame ≠ .ok t :=
  C9_broadcast_dropped emptyDB broadcastFrame (Or.inr (by decide))

/-- C10: for every database and every byte sequence shorter than 34 bytes, the loop body
takes its first `continue`: no tuple is assembled, so nothing is published. -/
theorem C10_short_frame_rejected (db : GeoDB) (f : List Byte) (h : f.length < 34) :
    processFrame db f = .error (.skip .tooShort) ∧ ∀ t, processFrame db f ≠ .ok t := by
  rw [processFrame_short db f h]
  exact ⟨rfl, fun t e => by cases e⟩

/-- Witness of C10: a frame cut off after 33 bytes. -/
theorem C10_short_frame_rejected_witness :
    processFrame emptyDB truncatedFrame = .error (.skip .tooShort) ∧
      ∀ t, processFrame emptyDB truncatedFrame ≠ .ok t :=
  C10_short_frame_rejected emptyDB truncatedFrame (by decide)

/-- C11: for every database and every frame whose bytes 12-13, read big-endian, differ
from 0x0800, the loop body ends in a `continue` and assembles no tuple, whatever the other
bytes are; when the frame has at least 34 bytes it is the ethertype `continue`. -/
theorem C11_other_ethertype_rejected (db : GeoDB) (f : List Byte)
    (h : 256 * (byteAt f 12).val + (byteAt f 13).val ≠ 0x0800) :
    (∃ r, processFrame db f = .error (.skip r)) ∧ (∀ t, processFrame db f ≠ .ok t) ∧
      (34 ≤ f.length → processFrame db f = .error (.skip .etherType)) := by
  have hno : ∀ t, processFrame db f ≠ .ok t := by
    intro t e
    rw [processFrame_ok_iff] at e
    exact h e.2.1
  refine ⟨?_, hno, ?_⟩
  · rcases skip_or_ok db f with ⟨r, hr⟩ | ⟨t, ht⟩
    · exact ⟨r, hr⟩
    · exact absurd ht (hno t)
  · intro hlen
    rw [processFrame_eq db f hlen, if_pos h]

/-- Witness of C11: an ARP request, ethertype 0x0806. -/
theorem C11_other_ethertype_rejected_witness :
    (∃ r, processFrame emptyDB arpFrame = .error (.skip r)) ∧
      (∀ t, processFrame emptyDB arpFrame ≠ .ok t) ∧
      (34 ≤ arpFrame.length → processFrame emptyDB arpFrame = .error (.skip .etherType)) :=
  C11_other_ethertype_rejected emptyDB arpFrame (by decide)

/-- C12 (failing input): a successful lookup with city `A`, no region and country `B`
gives the location `A, , B`, not `A, B`: `strings.Trim` removes separators at the two ends
only, and the separators around the missing region stay. -/
theorem C12_missing_region_keeps_separators :
    (getGeoLocation cityCountryDB [8, 8, 8, 8]).1 = str "A, , B" ∧
      (getGeoLocation cityCountryDB [8, 8, 8, 8]).1 ≠ str "A, B" := by
  decide

/-- C13: for every address that `isPrivateIP` accepts, `getGeoLocation` returns
(`Private Address`, 0, 0) and the result is the same for every database; for every other
address whose lookup fails it returns (`Unknown`, 0, 0); and whether the loop body
assembles a tuple for a frame does not depend on the database, so a failed lookup never
drops the record. -/
theorem C13_geo_sentinels (db db' : GeoDB) (ip : IP) :
    (isPrivateIP ip = true →
        getGeoLocation db ip = (str "Private Address", 0, 0) ∧
          getGeoLocation db' ip = getGeoLocation db ip) ∧
      (isPrivateIP ip = false → db ip = none →
        getGeoLocation db ip = (str "Unknown", 0, 0)) ∧
      (∀ f, (∃ t, processFrame db f = .ok t) → ∃ t', processFrame db' f = .ok t') := by
  refine ⟨?_, ?_, ?_⟩
  · intro h
    simp [getGeoLocation, h]
  · intro h hnone
    simp [getGeoLocation, h, hnone]
  · rintro f ⟨t, ht⟩
    rw [processFrame_ok_iff] at ht
    obtain ⟨h1, h2, h3, h4, h5, h6, h7, h8, -⟩ := ht
    exact ⟨assemble db' f, (processFrame_ok_iff db' f _).2 ⟨h1, h2, h3, h4, h5, h6, h7, h8, rfl⟩⟩

/-- Witness of C13: 10.0.0.5 is private, 8.8.8.8 is not and its lookup fails, and the frame
10.0.0.5 → 8.8.8.8 still yields a tuple. -/
theorem C13_geo_sentinels_witness :
    getGeoLocation emptyDB [10, 0, 0, 5] = (str "Private Address", 0, 0) ∧
      getGeoLocation emptyDB [8, 8, 8, 8] = (str "Unknown", 0, 0) ∧
      (∃ t, processFrame emptyDB outboundFrame = .ok t) :=
  ⟨((C13_geo_sentinels emptyDB cityCountryDB [10, 0, 0, 5]).1 (by decide)).1,
    (C13_geo_sentinels emptyDB cityCountryDB [8, 8, 8, 8]).2.1 (by decide) rfl,
    (C13_geo_sentinels cityCountryDB emptyDB [8, 8, 8, 8]).2.2 outboundFrame
      ⟨assemble cityCountryDB outboundFrame,
        (processFrame_ok_iff cityCountryDB outboundFrame _).2
          ⟨by decide, by decide, by decide, by decide, by decide, by decide, by decide,
            by decide, rfl⟩⟩⟩

/-- C17: for every 4-byte address a.b.c.d, `isPrivateIP` returns true if and only if
a = 10, or a = 172 and 16 ≤ b ≤ 31, or a = 192 and b = 168; 172.15.255.255, 172.32.0.0,
192.169.0.0 and 11.0.0.0 are not private, 172.16.0.0 and 172.31.255.255 are. -/
theorem C17_private_ranges :
    (∀ a b c d : Byte, isPrivateIP [a, b, c, d] = true ↔
      (a.val = 10 ∨ (a.val = 172 ∧ 16 ≤ b.val ∧ b.val ≤ 31) ∨ (a.val = 192 ∧ b.val = 168))) ∧
      isPrivateIP [172, 15, 255, 255] = false ∧ isPrivateIP [172, 32, 0, 0] = false ∧
      isPrivateIP [192, 169, 0, 0] = false ∧ isPrivateIP [11, 0, 0, 0] = false ∧
      isPrivateIP [172, 16, 0, 0] = true ∧ isPrivateIP [172, 31, 255, 255] = true :=
  ⟨isPrivateIP_quad, by decide, by decide, by decide, by decide, by decide, by decide⟩

/-- A frame that meets the acceptance conditions in their numeric form yields the
assembled tuple. -/
theorem assembled_iff_numeric (db : GeoDB) (f : List Byte) :
    processFrame db f = .ok (assemble db f) ↔
      (34 ≤ f.length ∧
        256 * (byteAt f 12).val + (byteAt f 13).val = 0x0800 ∧
        (byteAt f 14).val >>> 4 = 4 ∧
        ((byteAt f 14).val &&& 0x0F) * 4 + 4 ≤ f.length - 14 ∧
        ((byteAt f 23).val = 6 ∨ (byteAt f 23).val = 17) ∧
        ¬ ((byteAt f 26).val = 255 ∧ (byteAt f 27).val = 255 ∧ (byteAt f 28).val = 255 ∧
            (byteAt f 29).val = 255) ∧
        ¬ ((byteAt f 30).val = 255 ∧ (byteAt f 31).val = 255 ∧ (byteAt f 32).val = 255 ∧
            (byteAt f 33).val = 255) ∧
        ¬ (((byteAt f 26).val = 10 ∨
              ((byteAt f 26).val = 172 ∧ 16 ≤ (byteAt f 27).val ∧ (byteAt f 27).val ≤ 31) ∨
              ((byteAt f 26).val = 192 ∧ (byteAt f 27).val = 168)) ∧
            ((byteAt f 30).val = 10 ∨
              ((byteAt f 30).val = 172 ∧ 16 ≤ (byteAt f 31).val ∧ (byteAt f 31).val ≤ 31) ∨
              ((byteAt f 30).val = 192 ∧ (byteAt f 31).val = 168)))) := by
  have hs := isPrivateIP_quad (byteAt f 26) (byteAt f 27) (byteAt f 28) (byteAt f 29)
  have hd := isPrivateIP_quad (byteAt f 30) (byteAt f 31) (byteAt f 32) (byteAt f 33)
  have bs := IPEqual_bcast_quad (byteAt f 26) (byteAt f 27) (byteAt f 28) (byteAt f 29)
  have bd := IPEqual_bcast_quad (byteAt f 30) (byteAt f 31) (byteAt f 32) (byteAt f 33)
  simp only [processFrame_ok_iff, srcAddr, dstAddr, headerLen, byte_shr4, byte_and15,
    ← hs, ← hd, ← bs, ← bd, Bool.not_eq_true]
  constructor
  · rintro ⟨h1, h2, h3, h4, h5, h6, h7, h8, -⟩
    exact ⟨h1, h2, h3, h4, h8, h5, h6, h7⟩
  · rintro ⟨h1, h2, h3, h4, h8, h5, h6, h7⟩
    exact ⟨h1, h2, h3, h4, h5, h6, h7, h8, trivial⟩

/-- The frame passes every check of the loop body. -/
theorem outboundFrame_ok (db : GeoDB) :
    processFrame db outboundFrame = .ok (assemble db outboundFrame) :=
  (processFrame_ok_iff db outboundFrame _).2
    ⟨by decide, by decide, by decide, by decide, by decide, by decide, by decide,
      by decide, rfl⟩

/-- The frame passes every check of the loop body. -/
theorem httpGetFrame_ok (db : GeoDB) :
    processFrame db httpGetFrame = .ok (assemble db httpGetFrame) :=
  (processFrame_ok_iff db httpGetFrame _).2
    ⟨by decide, by decide, by decide, by decide, by decide, by decide, by decide,
      by decide, rfl⟩

theorem classify_empty_tcp (s d : Nat) :
    DetectApplicationProtocol 6 s d [] =
      if s = 21 ∨ d = 21 then str "FTP"
      else if s = 25 ∨ d = 25 then str "SMTP"
      else str "TCP_CONN" := by
  have e1 : isFTP [] s d = decide (s = 21 ∨ d = 21) := by
    rw [Bool.eq_iff_iff]
    simp [isFTP, HasPrefix, str]
  have e2 : isSMTP [] s d = decide (s = 25 ∨ d = 25) := by
    rw [Bool.eq_iff_iff]
    simp [isSMTP, HasPrefix, str]
  have e3 : isHTTP [] s d = false := by
    simp [isHTTP, HasPrefix, Contains, str]
  simp only [DetectApplicationProtocol, e1, e2, e3, ↓reduceIte, decide_eq_true_eq]
  simp

theorem classify_udp (s d : Nat) (data : GoString) :
    DetectApplicationProtocol 17 s d data =
      if s = 53 ∨ d = 53 then str "DNS" else str "UDP_PACKET" := by
  simp [DetectApplicationProtocol, isDNS]

/-- C14: for every frame for which a tuple is assembled and whose bytes after the two
port fields are not valid UTF-8, the label of the tuple is the classifier's result on the
empty text, a function of the protocol byte and the two ports only: for protocol 6 `FTP`
if either port is 21, otherwise `SMTP` if either port is 25, otherwise `TCP_CONN` (so never
`HTTP`); for protocol 17 `DNS` if either port is 53 and `UDP_PACKET` otherwise. -/
theorem C14_invalid_text_ports_only (db : GeoDB) (f : List Byte) (t : FiveTuple)
    (hok : processFrame db f = .ok t)
    (hbad : utf8Valid (f.drop (14 + ((byteAt f 14).val &&& 0x0F) * 4 + 4)) = false) :
    t.App = DetectApplicationProtocol (byteAt f 23).val t.SrcPort t.DstPort [] ∧
      ((byteAt f 23).val = 6 →
        t.App = (if t.SrcPort = 21 ∨ t.DstPort = 21 then str "FTP"
          else if t.SrcPort = 25 ∨ t.DstPort = 25 then str "SMTP"
          else str "TCP_CONN") ∧ t.App ≠ str "HTTP") ∧
      ((byteAt f 23).val = 17 →
        t.App = (if t.SrcPort = 53 ∨ t.DstPort = 53 then str "DNS" else str "UDP_PACKET")) := by
  rw [processFrame_ok_iff] at hok
  obtain ⟨-, -, -, -, -, -, -, -, rfl⟩ := hok
  rw [byte_and15] at hbad
  have hdrop : List.drop 4 (List.drop (14 + headerLen f) f) =
      List.drop (14 + (byteAt f 14).val % 16 * 4 + 4) f := by
    rw [List.drop_drop, headerLen]
  have e : (assemble db f).App =
      DetectApplicationProtocol (byteAt f 23).val (assemble db f).SrcPort
        (assemble db f).DstPort [] := by
    simp only [assemble, hdrop, hbad]
    rfl
  refine ⟨e, ?_, ?_⟩
  · intro h6
    rw [e, h6, classify_empty_tcp]
    refine ⟨rfl, ?_⟩
    split_ifs <;> decide
  · intro h17
    rw [e, h17, classify_udp]

/-- Witness of C14: the frame `httpGetFrame`, whose bytes after the ports start with
0x9E; its label is `TCP_CONN`. -/
theorem C14_invalid_text_ports_only_witness :
    (assemble emptyDB httpGetFrame).App =
        DetectApplicationProtocol (byteAt httpGetFrame 23).val
          (assemble emptyDB httpGetFrame).SrcPort (assemble emptyDB httpGetFrame).DstPort [] ∧
      ((byteAt httpGetFrame 23).val = 6 →
        (assemble emptyDB httpGetFrame).App =
          (if (assemble emptyDB httpGetFrame).SrcPort = 21 ∨
              (assemble emptyDB httpGetFrame).DstPort = 21 then str "FTP"
            else if (assemble emptyDB httpGetFrame).SrcPort = 25 ∨
              (assemble emptyDB httpGetFrame).DstPort = 25 then str "SMTP"
            else str "TCP_CONN") ∧
          (assemble emptyDB httpGetFrame).App ≠ str "HTTP") ∧
      ((byteAt httpGetFrame 23).val = 17 →
        (assemble emptyDB httpGetFrame).App =
          (if (assemble emptyDB httpGetFrame).SrcPort = 53 ∨
              (assemble emptyDB httpGetFrame).DstPort = 53 then str "DNS"
            else str "UDP_PACKET")) :=
  C14_invalid_text_ports_only emptyDB httpGetFrame (assemble emptyDB httpGetFrame)
    (httpGetFrame_ok emptyDB) (by decide)

theorem byteAt_drop (f : List Byte) (i j : Nat) : byteAt (f.drop i) j = byteAt f (i + j) :=
  getD_drop f i j

/-- The ports of the assembled tuple, as bytes of the frame. -/
theorem assemble_ports (db : GeoDB) (f : List Byte) :
    (assemble db f).SrcPort =
        256 * (byteAt f (14 + headerLen f)).val + (byteAt f (14 + headerLen f + 1)).val ∧
      (assemble db f).DstPort =
        256 * (byteAt f (14 + headerLen f + 2)).val + (byteAt f (14 + headerLen f + 3)).val := by
  constructor <;> simp [assemble, byteAt_drop]

/-- C15: for every frame for which a tuple is assembled, with `ihl = (f[14] & 0x0F) * 4`,
the four bytes `f[14+ihl .. 14+ihl+3]` exist, the source port of the tuple is
`256 * f[14+ihl] + f[14+ihl+1]`, its destination port is
`256 * f[14+ihl+2] + f[14+ihl+3]`, and both are at most 65535. -/
theorem C15_ports_big_endian (db : GeoDB) (f : List Byte) (t : FiveTuple)
    (hok : processFrame db f = .ok t) :
    14 + ((byteAt f 14).val &&& 0x0F) * 4 + 3 < f.length ∧
      t.SrcPort = 256 * (byteAt f (14 + ((byteAt f 14).val &&& 0x0F) * 4)).val +
        (byteAt f (14 + ((byteAt f 14).val &&& 0x0F) * 4 + 1)).val ∧
      t.DstPort = 256 * (byteAt f (14 + ((byteAt f 14).val &&& 0x0F) * 4 + 2)).val +
        (byteAt f (14 + ((byteAt f 14).val &&& 0x0F) * 4 + 3)).val ∧
      t.SrcPort ≤ 65535 ∧ t.DstPort ≤ 65535 := by
  rw [processFrame_ok_iff] at hok
  obtain ⟨hlen, -, -, hihl, -, -, -, -, rfl⟩ := hok
  obtain ⟨hs, hd⟩ := assemble_ports db f
  rw [byte_and15]
  rw [headerLen] at hihl hs hd
  have b0 := (byteAt f (14 + (byteAt f 14).val % 16 * 4)).isLt
  have b1 := (byteAt f (14 + (byteAt f 14).val % 16 * 4 + 1)).isLt
  have b2 := (byteAt f (14 + (byteAt f 14).val % 16 * 4 + 2)).isLt
  have b3 := (byteAt f (14 + (byteAt f 14).val % 16 * 4 + 3)).isLt
  refine ⟨by omega, hs, hd, ?_, ?_⟩
  · rw [hs]; omega
  · rw [hd]; omega

/-- Witness of C15: the DNS query `outboundFrame`, ports 40000 and 53. -/
theorem C15_ports_big_endian_witness :
    14 + ((byteAt outboundFrame 14).val &&& 0x0F) * 4 + 3 < outboundFrame.length ∧
      (assemble emptyDB outboundFrame).SrcPort =
        256 * (byteAt outboundFrame (14 + ((byteAt outboundFrame 14).val &&& 0x0F) * 4)).val +
          (byteAt outboundFrame (14 + ((byteAt outboundFrame 14).val &&& 0x0F) * 4 + 1)).val ∧
      (assemble emptyDB outboundFrame).DstPort =
        256 * (byteAt outboundFrame
            (14 + ((byteAt outboundFrame 14).val &&& 0x0F) * 4 + 2)).val +
          (byteAt outboundFrame (14 + ((byteAt outboundFrame 14).val &&& 0x0F) * 4 + 3)).val ∧
      (assemble emptyDB outboundFrame).SrcPort ≤ 65535 ∧
      (assemble emptyDB outboundFrame).DstPort ≤ 65535 :=
  C15_ports_big_endian emptyDB outboundFrame (assemble emptyDB outboundFrame)
    (outboundFrame_ok emptyDB)

/-- A frame of at least 34 bytes with ethertype 0x0800, first IPv4 byte 0x40, protocol
byte 6 or 17 and addresses that pass the broadcast and private filters yields a tuple
whose ports are bytes 14..17 of the frame. -/
theorem zero_header_length_assembled (db : GeoDB) (f : List Byte)
    (hlen : 34 ≤ f.length)
    (heth : 256 * (byteAt f 12).val + (byteAt f 13).val = 0x0800)
    (h14 : (byteAt f 14).val = 0x40)
    (hproto : (byteAt f 23).val = 6 ∨ (byteAt f 23).val = 17)
    (hbs : ¬ ((byteAt f 26).val = 255 ∧ (byteAt f 27).val = 255 ∧ (byteAt f 28).val = 255 ∧
      (byteAt f 29).val = 255))
    (hbd : ¬ ((byteAt f 30).val = 255 ∧ (byteAt f 31).val = 255 ∧ (byteAt f 32).val = 255 ∧
      (byteAt f 33).val = 255))
    (hpriv : ¬ (((byteAt f 26).val = 10 ∨
          ((byteAt f 26).val = 172 ∧ 16 ≤ (byteAt f 27).val ∧ (byteAt f 27).val ≤ 31) ∨
          ((byteAt f 26).val = 192 ∧ (byteAt f 27).val = 168)) ∧
        ((byteAt f 30).val = 10 ∨
          ((byteAt f 30).val = 172 ∧ 16 ≤ (byteAt f 31).val ∧ (byteAt f 31).val ≤ 31) ∨
          ((byteAt f 30).val = 192 ∧ (byteAt f 31).val = 168)))) :
    ∃ t, processFrame db f = .ok t ∧
      t.SrcPort = 0x4000 + (byteAt f 15).val ∧
      t.DstPort = 256 * (byteAt f 16).val + (byteAt f 17).val := by
  have hh : headerLen f = 0 := by
    rw [headerLen, h14]
  have hok : processFrame db f = .ok (assemble db f) := by
    refine (assembled_iff_numeric db f).2 ⟨hlen, heth, ?_, ?_, hproto, hbs, hbd, hpriv⟩
    · rw [h14]
      decide
    · rw [h14]
      have : (0x40 &&& 0x0F) * 4 = 0 := by decide
      omega
  obtain ⟨hs, hd⟩ := assemble_ports db f
  rw [hh] at hs hd
  refine ⟨_, hok, ?_, ?_⟩
  · rw [hs, h14]
  · rw [hd]

theorem classify_tcp_labels (s d : Nat) (data : GoString) :
    DetectApplicationProtocol 6 s d data = str "FTP" ∨
      DetectApplicationProtocol 6 s d data = str "SMTP" ∨
      DetectApplicationProtocol 6 s d data = str "HTTP" ∨
      DetectApplicationProtocol 6 s d data = str "TCP_CONN" := by
  simp only [DetectApplicationProtocol, ↓reduceIte]
  split_ifs <;> simp

theorem classify_unknown_iff (proto s d : Nat) (data : GoString) :
    DetectApplicationProtocol proto s d data = str "UNKNOWN" ↔ (proto ≠ 6 ∧ proto ≠ 17) := by
  by_cases h6 : proto = 6
  · subst h6
    have h := classify_tcp_labels s d data
    constructor
    · intro e
      rw [e] at h
      revert h
      decide
    · intro h'
      exact absurd rfl h'.1
  · by_cases h17 : proto = 17
    · subst h17
      rw [classify_udp]
      constructor
      · intro e
        split_ifs at e <;> revert e <;> decide
      · intro h'
        exact absurd rfl h'.2
    · simp [DetectApplicationProtocol, h6, h17]

theorem unknown_form_ne (n : Nat) :
    str "TCP" ≠ str "Unknown(" ++ str (toString n) ++ str ")" ∧
      str "UDP" ≠ str "Unknown(" ++ str (toString n) ++ str ")" := by
  constructor
  · intro h
    have h2 : (str "TCP").take 2 = (str "Unknown(" ++ str (toString n) ++ str ")").take 2 := by
      rw [h]
    have h3 : (str "TCP").take 2 = (str "Unknown(").take 2 := h2
    revert h3
    decide
  · intro h
    have h2 : (str "UDP").take 2 = (str "Unknown(" ++ str (toString n) ++ str ")").take 2 := by
      rw [h]
    have h3 : (str "UDP").take 2 = (str "Unknown(").take 2 := h2
    revert h3
    decide

/-- C20: every assembled tuple has protocol `TCP` or `UDP`, never of the form
`Unknown(n)`; with protocol `TCP` its label is `FTP`, `SMTP`, `HTTP` or `TCP_CONN`; with
protocol `UDP` its label is `DNS` or `UDP_PACKET`; its label is never `UNKNOWN`, which the
classifier returns exactly for protocol numbers other than 6 and 17. -/
theorem C20_labels_consistent (db : GeoDB) (f : List Byte) (t : FiveTuple)
    (hok : processFrame db f = .ok t) :
    (t.Protocol = str "TCP" ∨ t.Protocol = str "UDP") ∧
      (∀ n : Nat, t.Protocol ≠ str "Unknown(" ++ str (toString n) ++ str ")") ∧
      (t.Protocol = str "TCP" →
        t.App = str "FTP" ∨ t.App = str "SMTP" ∨ t.App = str "HTTP" ∨ t.App = str "TCP_CONN") ∧
      (t.Protocol = str "UDP" → t.App = str "DNS" ∨ t.App = str "UDP_PACKET") ∧
      t.App ≠ str "UNKNOWN" ∧
      (∀ (proto s d : Nat) (data : GoString),
        DetectApplicationProtocol proto s d data = str "UNKNOWN" ↔ (proto ≠ 6 ∧ proto ≠ 17)) := by
  rw [processFrame_ok_iff] at hok
  obtain ⟨-, -, -, -, -, -, -, hproto, rfl⟩ := hok
  have hP : (assemble db f).Protocol = protocolName (byteAt f 23).val := rfl
  have hA : ∃ s d data, (assemble db f).App =
      DetectApplicationProtocol (byteAt f 23).val s d data := ⟨_, _, _, rfl⟩
  obtain ⟨s, d, data, hA⟩ := hA
  have hne : str "TCP" ≠ str "UDP" := by decide
  refine ⟨?_, ?_, ?_, ?_, ?_, classify_unknown_iff⟩
  · rcases hproto with h | h <;> rw [hP, h]
    · exact Or.inl rfl
    · exact Or.inr rfl
  · intro n
    rcases hproto with h | h <;> rw [hP, h]
    · exact (unknown_form_ne n).1
    · exact (unknown_form_ne n).2
  · intro hT
    rcases hproto with h | h
    · rw [hA, h]
      exact classify_tcp_labels s d data
    · rw [hP, h] at hT
      exact absurd hT.symm hne
  · intro hU
    rcases hproto with h | h
    · rw [hP, h] at hU
      exact absurd hU hne
    · rw [hA, h, classify_udp]
      split_ifs
      · exact Or.inl rfl
      · exact Or.inr rfl
  · rw [hA, Ne, classify_unknown_iff]
    omega

/-- Witness of C20: the DNS query `outboundFrame`, protocol `UDP`. -/
theorem C20_labels_consistent_witness :
    ((assemble emptyDB outboundFrame).Protocol = str "TCP" ∨
        (assemble emptyDB outboundFrame).Protocol = str "UDP") ∧
      (∀ n : Nat,
        (assemble emptyDB outboundFrame).Protocol ≠
          str "Unknown(" ++ str (toString n) ++ str ")") ∧
      ((assemble emptyDB outboundFrame).Protocol = str "TCP" →
        (assemble emptyDB outboundFrame).App = str "FTP" ∨
          (assemble emptyDB outboundFrame).App = str "SMTP" ∨
          (assemble emptyDB outboundFrame).App = str "HTTP" ∨
          (assemble emptyDB outboundFrame).App = str "TCP_CONN") ∧
      ((assemble emptyDB outboundFrame).Protocol = str "UDP" →
        (assemble emptyDB outboundFrame).App = str "DNS" ∨
          (assemble emptyDB outboundFrame).App = str "UDP_PACKET") ∧
      (assemble emptyDB outboundFrame).App ≠ str "UNKNOWN" ∧
      (∀ (proto s d : Nat) (data : GoString),
        DetectApplicationProtocol proto s d data = str "UNKNOWN" ↔ (proto ≠ 6 ∧ proto ≠ 17)) :=
  C20_labels_consistent emptyDB outboundFrame (assemble emptyDB outboundFrame)
    (outboundFrame_ok emptyDB)

theorem error_bind {α β : Type} (e : Halt) (g : α → Except Halt β) :
    ((Except.error e : Except Halt α) >>= g) = Except.error e := rfl

theorem isVirtualLoop_iff (name : GoString) (ps : List GoString) :
    isVirtualLoop name ps = true ↔ ∃ p ∈ ps, p <+: name := by
  induction ps with
  | nil => simp [isVirtualLoop]
  | cons p rest ih =>
    rw [isVirtualLoop]
    by_cases h : HasPrefix name p = true
    · have hp := (HasPrefix_iff name p).1 h
      simp [h, hp]
    · have hp : ¬ p <+: name := fun hp => h ((HasPrefix_iff name p).2 hp)
      simp [h, hp, ih]

theorem isVirtualInterface_iff (name : GoString) :
    isVirtualInterface name = true ↔
      (str "docker" <+: name ∨ str "br-" <+: name ∨ str "virbr" <+: name ∨
        str "veth" <+: name ∨ str "vmnet" <+: name ∨ str "tun" <+: name ∨
        str "tap" <+: name ∨ str "lo" <+: name) := by
  rw [isVirtualInterface, isVirtualLoop_iff]
  simp [virtualPrefixes]

theorem selectLoop_not_virtual (host : Host) (ifaces : List Interface) (iface : Interface)
    (h : selectLoop host ifaces = some iface) : isVirtualInterface iface.Name = false := by
  induction ifaces with
  | nil => simp [selectLoop] at h
  | cons i rest ih =>
    rw [selectLoop] at h
    split at h
    · rename_i hc
      split at h
      · split at h
        · cases h
          simp only [Bool.and_eq_true, Bool.not_eq_true'] at hc
          exact hc.1.2
        · exact ih h
      · exact ih h
    · exact ih h

/-- C16: `isVirtualInterface` returns true if and only if the name begins with one of
`docker`, `br-`, `virbr`, `veth`, `vmnet`, `tun`, `tap`, `lo`; and an interface returned
by `getActiveInterface` has a name that begins with none of them, whatever the machine
reports. -/
theorem C16_virtual_interfaces_excluded :
    (∀ name : GoString, isVirtualInterface name = true ↔
      (str "docker" <+: name ∨ str "br-" <+: name ∨ str "virbr" <+: name ∨
        str "veth" <+: name ∨ str "vmnet" <+: name ∨ str "tun" <+: name ∨
        str "tap" <+: name ∨ str "lo" <+: name)) ∧
      (∀ (host : Host) (iface : Interface), getActiveInterface host = some iface →
        ¬ (str "docker" <+: iface.Name ∨ str "br-" <+: iface.Name ∨
          str "virbr" <+: iface.Name ∨ str "veth" <+: iface.Name ∨
          str "vmnet" <+: iface.Name ∨ str "tun" <+: iface.Name ∨
          str "tap" <+: iface.Name ∨ str "lo" <+: iface.Name)) := by
  refine ⟨isVirtualInterface_iff, ?_⟩
  intro host iface h
  rw [← isVirtualInterface_iff]
  unfold getActiveInterface at h
  split at h
  · cases h
  · simp [selectLoop_not_virtual host _ iface h]

/-- Witness of C16: on `sampleHost` the Docker bridge and the loopback interface are
passed over and `enp3s0` is returned. -/
theorem C16_virtual_interfaces_excluded_witness :
    getActiveInterface sampleHost = some { Name := str "enp3s0", Flags := 51 } ∧
      ¬ (str "docker" <+: str "enp3s0" ∨ str "br-" <+: str "enp3s0" ∨
        str "virbr" <+: str "enp3s0" ∨ str "veth" <+: str "enp3s0" ∨
        str "vmnet" <+: str "enp3s0" ∨ str "tun" <+: str "enp3s0" ∨
        str "tap" <+: str "enp3s0" ∨ str "lo" <+: str "enp3s0") :=
  ⟨by decide,
    C16_virtual_interfaces_excluded.2 sampleHost { Name := str "enp3s0", Flags := 51 }
      (by decide)⟩

/-! ## Encoding and publishing of the assembled tuple -/

/-- After a tuple is assembled the loop body encodes it and publishes the encoding. -/
theorem loopBody_ok (db : GeoDB) (bus : Bus) (f : List Byte) (t : FiveTuple)
    (h : processFrame db f = .ok t) :
    loopBody db bus f =
      if marshalOK t then (if bus t then .published t else .publishError t)
      else .encodeError t := by
  simp only [loopBody, h]

theorem isNaNOrInf_zero : isNaNOrInf 0 = false := by decide

/-- C8 (amended): for every database, every message bus and every frame that passes the
decoder checks (at least 34 bytes, ethertype 0x0800, version 4, `len(f) - 14 >= ihl + 4`)
with protocol byte 6 or 17, whose source address is private and whose destination address
is neither private nor 255.255.255.255, a tuple is assembled with source location
`Private Address`, latitude 0 and longitude 0; it is published exactly when the
destination latitude and longitude are neither NaN nor infinite and `rdb.Publish`
succeeds; when one of them is NaN or infinite `json.Marshal` fails and nothing is
published. -/
theorem C8_private_source_published_if_encodable (db : GeoDB) (bus : Bus) (f : List Byte)
    (hlen : 34 ≤ f.length)
    (heth : 256 * (byteAt f 12).val + (byteAt f 13).val = 0x0800)
    (hver : (byteAt f 14).val >>> 4 = 4)
    (hihl : ((byteAt f 14).val &&& 0x0F) * 4 + 4 ≤ f.length - 14)
    (hproto : (byteAt f 23).val = 6 ∨ (byteAt f 23).val = 17)
    (hsrc : (byteAt f 26).val = 10 ∨
      ((byteAt f 26).val = 172 ∧ 16 ≤ (byteAt f 27).val ∧ (byteAt f 27).val ≤ 31) ∨
      ((byteAt f 26).val = 192 ∧ (byteAt f 27).val = 168))
    (hdst : ¬ ((byteAt f 30).val = 10 ∨
      ((byteAt f 30).val = 172 ∧ 16 ≤ (byteAt f 31).val ∧ (byteAt f 31).val ≤ 31) ∨
      ((byteAt f 30).val = 192 ∧ (byteAt f 31).val = 168)))
    (hbc : ¬ ((byteAt f 30).val = 255 ∧ (byteAt f 31).val = 255 ∧ (byteAt f 32).val = 255 ∧
      (byteAt f 33).val = 255)) :
    ∃ t, processFrame db f = .ok t ∧
      t.SrcLocation = str "Private Address" ∧ t.SrcLat = 0 ∧ t.SrcLon = 0 ∧
      (loopBody db bus f = .published t ↔
        (isNaNOrInf t.DstLat = false ∧ isNaNOrInf t.DstLon = false ∧ bus t = true)) ∧
      ((isNaNOrInf t.DstLat = true ∨ isNaNOrInf t.DstLon = true) →
        loopBody db bus f = .encodeError t) := by
  obtain ⟨t, hok, h1, h2, h3⟩ :=
    private_source_assembled db f hlen heth hver hihl hproto hsrc hdst hbc
  refine ⟨t, hok, h1, h2, h3, ?_, ?_⟩
  · rw [loopBody_ok db bus f t hok]
    simp only [marshalOK, h2, h3, isNaNOrInf_zero, Bool.false_or]
    cases hlat : isNaNOrInf t.DstLat <;> cases hlon : isNaNOrInf t.DstLon <;>
      cases hb : bus t <;> simp
  · intro h
    rw [loopBody_ok db bus f t hok]
    simp only [marshalOK, h2, h3, isNaNOrInf_zero, Bool.false_or]
    rcases h with h | h <;> simp [h]

/-- Witness of C8 (amended): the frame 10.0.0.5 → 8.8.8.8, with a database in which every
lookup fails and a bus on which every publish succeeds. -/
theorem C8_private_source_published_if_encodable_witness :
    ∃ t, processFrame emptyDB outboundFrame = .ok t ∧
      t.SrcLocation = str "Private Address" ∧ t.SrcLat = 0 ∧ t.SrcLon = 0 ∧
      (loopBody emptyDB okBus outboundFrame = .published t ↔
        (isNaNOrInf t.DstLat = false ∧ isNaNOrInf t.DstLon = false ∧ okBus t = true)) ∧
      ((isNaNOrInf t.DstLat = true ∨ isNaNOrInf t.DstLon = true) →
        loopBody emptyDB okBus outboundFrame = .encodeError t) :=
  C8_private_source_published_if_encodable emptyDB okBus outboundFrame (by decide) (by decide)
    (by decide) (by decide) (by decide) (by decide) (by decide) (by decide)

/-- C8 (counterexample to the claim as stated): the frame 10.0.0.5 → 8.8.8.8 meets every
condition of the claim, yet with a database that returns a NaN latitude for the
destination `json.Marshal` fails and no record is published, whatever the bus does; and
with a bus on which the publish fails none is published either. -/
theorem C8_counterexample_unencodable_destination :
    ((34 ≤ outboundFrame.length) ∧
      (256 * (byteAt outboundFrame 12).val + (byteAt outboundFrame 13).val = 0x0800) ∧
      ((byteAt outboundFrame 14).val >>> 4 = 4) ∧
      (((byteAt outboundFrame 14).val &&& 0x0F) * 4 + 4 ≤ outboundFrame.length - 14) ∧
      ((byteAt outboundFrame 23).val = 6 ∨ (byteAt outboundFrame 23).val = 17) ∧
      ((byteAt outboundFrame 26).val = 10 ∨
      ((byteAt outboundFrame 26).val = 172 ∧ 16 ≤ (byteAt outboundFrame 27).val ∧ (byteAt outboundFrame 27).val ≤ 31) ∨
      ((byteAt outboundFrame 26).val = 192 ∧ (byteAt outboundFrame 27).val = 168)) ∧
      (¬ ((byteAt outboundFrame 30).val = 10 ∨
      ((byteAt outboundFrame 30).val = 172 ∧ 16 ≤ (byteAt outboundFrame 31).val ∧ (byteAt outboundFrame 31).val ≤ 31) ∨
      ((byteAt outboundFrame 30).val = 192 ∧ (byteAt outboundFrame 31).val = 168))) ∧
      (¬ ((byteAt outboundFrame 30).val = 255 ∧ (byteAt outboundFrame 31).val = 255 ∧ (byteAt outboundFrame 32).val = 255 ∧
      (byteAt outboundFrame 33).val = 255))) ∧
      loopBody nanDB okBus outboundFrame = .encodeError (assemble nanDB outboundFrame) ∧
      (∀ (bus : Bus) (t : FiveTuple), loopBody nanDB bus outboundFrame ≠ .published t) ∧
      loopBody emptyDB downBus outboundFrame =
        .publishError (assemble emptyDB outboundFrame) := by
  have hm : marshalOK (assemble nanDB outboundFrame) = false := by decide
  have hm' : marshalOK (assemble emptyDB outboundFrame) = true := by decide
  refine ⟨by decide, ?_, ?_, ?_⟩
  · rw [loopBody_ok nanDB okBus outboundFrame _ (outboundFrame_ok nanDB), hm]
    rfl
  · intro bus t
    rw [loopBody_ok nanDB bus outboundFrame _ (outboundFrame_ok nanDB), hm]
    simp
  · rw [loopBody_ok emptyDB downBus outboundFrame _ (outboundFrame_ok emptyDB), hm']
    rfl

/-- C19 (amended): for every database, every message bus and every frame of at least 34
bytes with ethertype 0x0800, first IPv4 byte 0x40 (version 4, header-length nibble 0),
protocol byte 6 or 17, neither address 255.255.255.255 and not both addresses private, a
tuple is assembled whose ports are bytes of the IPv4 header: source port `0x4000 + f[15]`,
destination port `256 * f[16] + f[17]`; it is published exactly when none of its four
coordinates is NaN or infinite and `rdb.Publish` succeeds; when one of them is NaN or
infinite `json.Marshal` fails and nothing is published. -/
theorem C19_zero_header_length_published_if_encodable (db : GeoDB) (bus : Bus)
    (f : List Byte)
    (hlen : 34 ≤ f.length)
    (heth : 256 * (byteAt f 12).val + (byteAt f 13).val = 0x0800)
    (h14 : (byteAt f 14).val = 0x40)
    (hproto : (byteAt f 23).val = 6 ∨ (byteAt f 23).val = 17)
    (hbs : ¬ ((byteAt f 26).val = 255 ∧ (byteAt f 27).val = 255 ∧ (byteAt f 28).val = 255 ∧
      (byteAt f 29).val = 255))
    (hbd : ¬ ((byteAt f 30).val = 255 ∧ (byteAt f 31).val = 255 ∧ (byteAt f 32).val = 255 ∧
      (byteAt f 33).val = 255))
    (hpriv : ¬ (((byteAt f 26).val = 10 ∨
          ((byteAt f 26).val = 172 ∧ 16 ≤ (byteAt f 27).val ∧ (byteAt f 27).val ≤ 31) ∨
          ((byteAt f 26).val = 192 ∧ (byteAt f 27).val = 168)) ∧
        ((byteAt f 30).val = 10 ∨
          ((byteAt f 30).val = 172 ∧ 16 ≤ (byteAt f 31).val ∧ (byteAt f 31).val ≤ 31) ∨
          ((byteAt f 30).val = 192 ∧ (byteAt f 31).val = 168)))) :
    ∃ t, processFrame db f = .ok t ∧
      t.SrcPort = 0x4000 + (byteAt f 15).val ∧
      t.DstPort = 256 * (byteAt f 16).val + (byteAt f 17).val ∧
      (loopBody db bus f = .published t ↔
        (isNaNOrInf t.SrcLat = false ∧ isNaNOrInf t.SrcLon = false ∧
          isNaNOrInf t.DstLat = false ∧ isNaNOrInf t.DstLon = false ∧ bus t = true)) ∧
      ((isNaNOrInf t.SrcLat = true ∨ isNaNOrInf t.SrcLon = true ∨
          isNaNOrInf t.DstLat = true ∨ isNaNOrInf t.DstLon = true) →
        loopBody db bus f = .encodeError t) := by
  obtain ⟨t, hok, h1, h2⟩ :=
    zero_header_length_assembled db f hlen heth h14 hproto hbs hbd hpriv
  refine ⟨t, hok, h1, h2, ?_, ?_⟩
  · rw [loopBody_ok db bus f t hok]
    simp only [marshalOK]
    by_cases ha : isNaNOrInf t.SrcLat = true <;> by_cases hb : isNaNOrInf t.SrcLon = true <;>
      by_cases hc : isNaNOrInf t.DstLat = true <;> by_cases hd : isNaNOrInf t.DstLon = true <;>
      by_cases he : bus t = true <;> simp [ha, hb, hc, hd, he]
  · intro h
    rw [loopBody_ok db bus f t hok]
    simp only [marshalOK]
    rcases h with h | h | h | h <;> simp [h]

/-- Witness of C19 (amended): the frame `zeroIhlFrame`, with a database in which every
lookup fails and a bus on which every publish succeeds. -/
theorem C19_zero_header_length_published_if_encodable_witness :
    ∃ t, processFrame emptyDB zeroIhlFrame = .ok t ∧
      t.SrcPort = 0x4000 + (byteAt zeroIhlFrame 15).val ∧
      t.DstPort = 256 * (byteAt zeroIhlFrame 16).val + (byteAt zeroIhlFrame 17).val ∧
      (loopBody emptyDB okBus zeroIhlFrame = .published t ↔
        (isNaNOrInf t.SrcLat = false ∧ isNaNOrInf t.SrcLon = false ∧
          isNaNOrInf t.DstLat = false ∧ isNaNOrInf t.DstLon = false ∧ okBus t = true)) ∧
      ((isNaNOrInf t.SrcLat = true ∨ isNaNOrInf t.SrcLon = true ∨
          isNaNOrInf t.DstLat = true ∨ isNaNOrInf t.DstLon = true) →
        loopBody emptyDB okBus zeroIhlFrame = .encodeError t) :=
  C19_zero_header_length_published_if_encodable emptyDB okBus zeroIhlFrame (by decide)
    (by decide) (by decide) (by decide) (by decide) (by decide) (by decide)

/-- The frame passes every check of the loop body. -/
theorem zeroIhlFrame_ok (db : GeoDB) :
    processFrame db zeroIhlFrame = .ok (assemble db zeroIhlFrame) :=
  (processFrame_ok_iff db zeroIhlFrame _).2
    ⟨by decide, by decide, by decide, by decide, by decide, by decide, by decide,
      by decide, rfl⟩

/-- C19 (counterexample to the claim as stated): the frame `zeroIhlFrame` meets every
condition of the claim, yet with a database that returns a NaN latitude for the
destination `json.Marshal` fails and no record is published, whatever the bus does; and
with a bus on which the publish fails none is published either. -/
theorem C19_counterexample_unencodable_destination :
    ((34 ≤ zeroIhlFrame.length) ∧
      (256 * (byteAt zeroIhlFrame 12).val + (byteAt zeroIhlFrame 13).val = 0x0800) ∧
      ((byteAt zeroIhlFrame 14).val = 0x40) ∧
      ((byteAt zeroIhlFrame 23).val = 6 ∨ (byteAt zeroIhlFrame 23).val = 17) ∧
      (¬ ((byteAt zeroIhlFrame 26).val = 255 ∧ (byteAt zeroIhlFrame 27).val = 255 ∧ (byteAt zeroIhlFrame 28).val = 255 ∧
      (byteAt zeroIhlFrame 29).val = 255)) ∧
      (¬ ((byteAt zeroIhlFrame 30).val = 255 ∧ (byteAt zeroIhlFrame 31).val = 255 ∧ (byteAt zeroIhlFrame 32).val = 255 ∧
      (byteAt zeroIhlFrame 33).val = 255)) ∧
      (¬ (((byteAt zeroIhlFrame 26).val = 10 ∨
          ((byteAt zeroIhlFrame 26).val = 172 ∧ 16 ≤ (byteAt zeroIhlFrame 27).val ∧ (byteAt zeroIhlFrame 27).val ≤ 31) ∨
          ((byteAt zeroIhlFrame 26).val = 192 ∧ (byteAt zeroIhlFrame 27).val = 168)) ∧
        ((byteAt zeroIhlFrame 30).val = 10 ∨
          ((byteAt zeroIhlFrame 30).val = 172 ∧ 16 ≤ (byteAt zeroIhlFrame 31).val ∧ (byteAt zeroIhlFrame 31).val ≤ 31) ∨
          ((byteAt zeroIhlFrame 30).val = 192 ∧ (byteAt zeroIhlFrame 31).val = 168))))) ∧
      loopBody nanDB okBus zeroIhlFrame = .encodeError (assemble nanDB zeroIhlFrame) ∧
      (∀ (bus : Bus) (t : FiveTuple), loopBody nanDB bus zeroIhlFrame ≠ .published t) ∧
      loopBody emptyDB downBus zeroIhlFrame =
        .publishError (assemble emptyDB zeroIhlFrame) := by
  have hm : marshalOK (assemble nanDB zeroIhlFrame) = false := by decide
  have hm' : marshalOK (assemble emptyDB zeroIhlFrame) = true := by decide
  refine ⟨by decide, ?_, ?_, ?_⟩
  · rw [loopBody_ok nanDB okBus zeroIhlFrame _ (zeroIhlFrame_ok nanDB), hm]
    rfl
  · intro bus t
    rw [loopBody_ok nanDB bus zeroIhlFrame _ (zeroIhlFrame_ok nanDB), hm]
    simp
  · rw [loopBody_ok emptyDB downBus zeroIhlFrame _ (zeroIhlFrame_ok emptyDB), hm']
    rfl

end GetInfo
